import Mathlib

/-!
# ArcadeStick1.c : configuration byte, report builder, autofire and mode gestures

A shallow embedding of `src/ArcadeStick1.c`.  Bytes and 16-bit words are natural
numbers; the C globals `config`, `config_EEPROM`, `reportBuffer` and the three
function-local statics of `ReadJoystick` are fields of an explicit machine state
that every operation receives and returns.
-/

namespace ArcadeStick

/-! ## Build options and pins -/

/-- The two values of `F_CPU` for which the source defines `AUTOFIREMAX`
(lines 450-456); with any other value the file does not compile. -/
inductive Clock where
  | mhz16
  | mhz12
  deriving DecidableEq, Repr

/-- Preprocessor configuration of one build: the CPU clock and the two
`#ifdef` switches `EXTRA_BUTTONS` and `CLEAR_AUTOFIRE`. -/
structure Build where
  F_CPU : Clock
  EXTRA_BUTTONS : Bool
  CLEAR_AUTOFIRE : Bool
  deriving DecidableEq, Repr

/-- Modelled from the spec: the pin macros of `pinAssignment.h`, which is not part
of the sources.  Each field is the C truth value of the macro of the same name as
read during one tick; the inputs are active low, so a field is `false` exactly
when the control is pressed and the source tests `!Stick_X` for "pressed". -/
structure Pins where
  Stick_Up : Bool
  Stick_Down : Bool
  Stick_Left : Bool
  Stick_Right : Bool
  Stick_Square : Bool
  Stick_Cross : Bool
  Stick_Circle : Bool
  Stick_Triangle : Bool
  Stick_L1 : Bool
  Stick_R1 : Bool
  Stick_L2 : Bool
  Stick_R2 : Bool
  Stick_Select : Bool
  Stick_Start : Bool
  Stick_L3 : Bool
  Stick_R3 : Bool
  Stick_Home : Bool
  Stick_Mode : Bool
  deriving DecidableEq, Repr

/-- Line 83: `#define DEFAULT_ACTION_BUTTON Stick_Mode`. -/
def DEFAULT_ACTION_BUTTON (p : Pins) : Bool := p.Stick_Mode

/-- All controls released (every pin reads high). -/
def Pins.idle : Pins :=
  { Stick_Up := true, Stick_Down := true, Stick_Left := true, Stick_Right := true,
    Stick_Square := true, Stick_Cross := true, Stick_Circle := true,
    Stick_Triangle := true, Stick_L1 := true, Stick_R1 := true, Stick_L2 := true,
    Stick_R2 := true, Stick_Select := true, Stick_Start := true, Stick_L3 := true,
    Stick_R3 := true, Stick_Home := true, Stick_Mode := true }

/-! ## Configuration byte -/

/-- Line 18: the value of an EEPROM cell that was never written. -/
def EEPROM_DEF : Nat := 0xFF

/-- Line 96: the default configuration, `0b00000100`. -/
def CONFIG_DEF : Nat := 0b00000100

/-- Line 103: `(config & (1<<1))` as a C condition. -/
def CFG_LEFT_STICK (config : Nat) : Bool := config &&& (1 <<< 1) != 0

/-- Line 105: `(config & (1<<2))` as a C condition. -/
def CFG_DIGITAL_PAD (config : Nat) : Bool := config &&& (1 <<< 2) != 0

/-- Line 107: `(config & (1<<3))` as a C condition. -/
def CFG_RIGHT_STICK (config : Nat) : Bool := config &&& (1 <<< 3) != 0

/-- Line 109: `(config & (1<<4))` as a C condition. -/
def CFG_HOME_EMU (config : Nat) : Bool := config &&& (1 <<< 4) != 0

/-- Line 111: `((config & (1<<5)) && !(config & (1<<6)))`. -/
def CFG_JOYSTICK_SWITCH_READ (config : Nat) : Bool :=
  (config &&& (1 <<< 5) != 0) && !(config &&& (1 <<< 6) != 0)

/-- Line 113: `(!(config & (1<<5) && (config & (1<<6))))`; in C `&` binds tighter
than `&&`, so the negation covers the whole conjunction. -/
def CFG_JOYSTICK_SWITCH_EMU (config : Nat) : Bool :=
  !((config &&& (1 <<< 5) != 0) && (config &&& (1 <<< 6) != 0))

/-- Line 115: `((config & (1<<5)) && (config & (1<<6)))`. -/
def CFG_INVERTED_TRIGGERS (config : Nat) : Bool :=
  (config &&& (1 <<< 5) != 0) && (config &&& (1 <<< 6) != 0)

/-! ## Report buffer -/

/-- Lines 129-138: `report_t`. -/
structure Report where
  buttons1 : Nat
  buttons2 : Nat
  hatswitch : Nat
  x : Nat
  y : Nat
  z : Nat
  rz : Nat
  extra : Nat
  deriving DecidableEq, Repr

/-- Lines 167-176: every field of the buffer is assigned. -/
def resetReportBuffer (r : Report) : Report :=
  { r with buttons1 := 0, buttons2 := 0, extra := 0, hatswitch := 0x08,
           x := 0x80, y := 0x80, z := 0x80, rz := 0x80 }

/-- Lines 142-165 with the V-USB constants `USBRQ_TYPE_MASK = 0x60`,
`USBRQ_TYPE_CLASS = 0x20` and `USBRQ_HID_GET_REPORT = 0x01`: a class GET_REPORT
request fills the buffer with a canned report and returns its size, any other
request returns 0 and leaves the buffer alone. -/
def usbFunctionSetup (bmRequestType bRequest : Nat) (r : Report) : Report × Nat :=
  if bmRequestType &&& 0x60 = 0x20 ∧ bRequest = 0x01 then
    ({ r with buttons1 := 33, buttons2 := 38, hatswitch := 0, x := 0, y := 0,
              z := 0, rz := 0, extra := 0 }, 8)
  else (r, 0)

/-! ## Machine state -/

/-- The function-local statics of `ReadJoystick` (lines 461-463). -/
structure Autofire where
  autofireCounter : Nat
  autofireModulator : Nat
  lastButtons : Nat
  deriving DecidableEq, Repr

/-- Initial values of the statics: counter 0, modulator `0xffff`, no previous
buttons. -/
def Autofire.boot : Autofire :=
  { autofireCounter := 0, autofireModulator := 0xffff, lastButtons := 0 }

/-- The globals the program reads and writes. -/
structure Machine where
  config : Nat
  config_EEPROM : Nat
  reportBuffer : Report
  af : Autofire
  deriving DecidableEq, Repr

/-! ## configInit (lines 228-329) -/

/-- Lines 228-329; the block between `/*` and `*/` on lines 239-321 is a comment. -/
def configInit (m : Machine) : Machine :=
  let config := m.config_EEPROM
  let newConfig := if config = EEPROM_DEF then CONFIG_DEF else config
  if newConfig ≠ config then
    { m with config_EEPROM := newConfig, config := newConfig }
  else
    { m with config := config }

/-! ## Mode commits (lines 597-635) -/

/-- C statement `config |= (1<<k)` on a `uint8_t`. -/
def setBit (config k : Nat) : Nat := (config ||| (1 <<< k)) % 256

/-- C statement `config &= ~(1<<k)` on a `uint8_t`: the operand `~(1<<k)` is an
`int` with every bit but `k` set, so the low byte of the result is `config` and
`0xFF` without bit `k`. -/
def clrBit (config k : Nat) : Nat := (config &&& (0xFF ^^^ (1 <<< k))) % 256

/-- Lines 597-605. -/
def enterLeftStickMode (m : Machine) : Machine :=
  let config := clrBit m.config 2
  let config := setBit config 1
  let config := clrBit config 3
  { m with config := config, config_EEPROM := config }

/-- Lines 607-615. -/
def enterRightStickMode (m : Machine) : Machine :=
  let config := clrBit m.config 2
  let config := clrBit config 1
  let config := setBit config 3
  { m with config := config, config_EEPROM := config }

/-- Lines 617-625. -/
def enterDigitalPadMode (m : Machine) : Machine :=
  let config := setBit m.config 2
  let config := clrBit config 1
  let config := clrBit config 3
  { m with config := config, config_EEPROM := config }

/-- Lines 627-635. -/
def enterLeftStickDigitalPadMode (m : Machine) : Machine :=
  let config := setBit m.config 2
  let config := setBit config 1
  let config := clrBit config 3
  { m with config := config, config_EEPROM := config }

/-- Lines 651-664: the mode gesture of the main loop. -/
def modeGesture (p : Pins) (m : Machine) : Machine :=
  if !DEFAULT_ACTION_BUTTON p then
    if !p.Stick_Up then enterDigitalPadMode m
    else if !p.Stick_Left then enterLeftStickMode m
    else if !p.Stick_Right then enterRightStickMode m
    else if !p.Stick_Down then enterLeftStickDigitalPadMode m
    else m
  else m

/-! ## ReadJoystick (lines 459-594) -/

/-- Lines 447-456: `AUTOFIREMAX` expands to `60/5` or `45/5`. -/
def AUTOFIREMAX (b : Build) : Nat :=
  match b.F_CPU with
  | .mhz16 => 60 / 5
  | .mhz12 => 45 / 5

/-- Lines 469-476: left stick. -/
def leftJoystickDirections (config : Nat) (p : Pins) (r : Report) : Report :=
  if CFG_LEFT_STICK config then
    let r := if !p.Stick_Up && p.Stick_Down then { r with y := 0x00 }
      else if !p.Stick_Down && p.Stick_Up then { r with y := 0xFF }
      else r
    if !p.Stick_Left && p.Stick_Right then { r with x := 0x00 }
    else if !p.Stick_Right && p.Stick_Left then { r with x := 0xFF }
    else r
  else r

/-- Lines 478-486: right stick. -/
def rightJoystickDirections (config : Nat) (p : Pins) (r : Report) : Report :=
  if CFG_RIGHT_STICK config then
    let r := if !p.Stick_Up && p.Stick_Down then { r with rz := 0 }
      else if !p.Stick_Down && p.Stick_Up then { r with rz := 0xFF }
      else r
    if !p.Stick_Left && p.Stick_Right then { r with z := 0 }
    else if !p.Stick_Right && p.Stick_Left then { r with z := 0xFF }
    else r
  else r

/-- Lines 488-504: digital pad. -/
def digitalPadDirections (config : Nat) (p : Pins) (r : Report) : Report :=
  if CFG_DIGITAL_PAD config then
    if !p.Stick_Up && p.Stick_Down then
      if !p.Stick_Right && p.Stick_Left then { r with hatswitch := 0x01 }
      else if !p.Stick_Left && p.Stick_Right then { r with hatswitch := 0x07 }
      else { r with hatswitch := 0x00 }
    else if !p.Stick_Down && p.Stick_Up then
      if !p.Stick_Right && p.Stick_Left then { r with hatswitch := 0x03 }
      else if !p.Stick_Left && p.Stick_Right then { r with hatswitch := 0x05 }
      else { r with hatswitch := 0x04 }
    else
      let r := if !p.Stick_Right && p.Stick_Left then { r with hatswitch := 0x02 } else r
      if !p.Stick_Left && p.Stick_Right then { r with hatswitch := 0x06 } else r
  else r

/-- C statement `if (c) buttonsNow |= (1<<k);`. -/
def orIf (c : Bool) (buttonsNow k : Nat) : Nat :=
  if c then buttonsNow ||| (1 <<< k) else buttonsNow

/-- Lines 507-531: the raw button vector. -/
def sampleButtons (b : Build) (config : Nat) (p : Pins) : Nat :=
  let buttonsNow := 0
  let buttonsNow := orIf (!p.Stick_Square) buttonsNow 0
  let buttonsNow := orIf (!p.Stick_Cross) buttonsNow 1
  let buttonsNow := orIf (!p.Stick_Circle) buttonsNow 2
  let buttonsNow := orIf (!p.Stick_Triangle) buttonsNow 3
  let buttonsNow := if b.EXTRA_BUTTONS then orIf (!p.Stick_L1) buttonsNow 4 else buttonsNow
  let buttonsNow := orIf (!p.Stick_R1) buttonsNow 5
  let buttonsNow := if b.EXTRA_BUTTONS then orIf (!p.Stick_L2) buttonsNow 6 else buttonsNow
  let buttonsNow := orIf (!p.Stick_R2) buttonsNow 7
  let buttonsNow :=
    if CFG_HOME_EMU config && !p.Stick_Start && !p.Stick_Select then
      buttonsNow ||| (1 <<< 12)
    else
      let buttonsNow := orIf (!p.Stick_Select) buttonsNow 8
      orIf (!p.Stick_Start) buttonsNow 9
  let buttonsNow := orIf (!p.Stick_L3) buttonsNow 10
  let buttonsNow := orIf (!p.Stick_R3) buttonsNow 11
  orIf (!p.Stick_Home) buttonsNow 12

/-- Line 548: the constant `0x018ff` that `tempButtons` is masked with. -/
def pressEventMask : Nat := 0x018ff

/-- Lines 546-550: the value of `tempButtons` after the three assignments. -/
def pressEvents (lastButtons buttonsNow : Nat) : Nat :=
  let tempButtons := lastButtons
  let tempButtons := tempButtons &&& pressEventMask
  let tempButtons := tempButtons &&& buttonsNow
  tempButtons ^^^ buttonsNow

/-- Lines 534-572: autofire processing.  Returns the new statics and the value of
`buttonsNow` that is put in the report. -/
def autofire (b : Build) (p : Pins) (buttonsNow : Nat) (a : Autofire) : Autofire × Nat :=
  let autofireModulator :=
    if b.CLEAR_AUTOFIRE && (!p.Stick_Start && !p.Stick_Select) then 0xffff
    else a.autofireModulator
  let tempButtons := pressEvents a.lastButtons buttonsNow
  let lastButtons := buttonsNow
  let autofireModulator :=
    if !DEFAULT_ACTION_BUTTON p then autofireModulator ^^^ tempButtons
    else autofireModulator
  let autofireCounter := (a.autofireCounter + 1) % 256
  let autofireCounter := if autofireCounter = AUTOFIREMAX b then 0 else autofireCounter
  let buttonsNow :=
    if autofireCounter < AUTOFIREMAX b / 2 && DEFAULT_ACTION_BUTTON p then
      buttonsNow &&& autofireModulator
    else buttonsNow
  ({ autofireCounter := autofireCounter, autofireModulator := autofireModulator,
     lastButtons := lastButtons }, buttonsNow)

/-- Lines 459-594. -/
def ReadJoystick (b : Build) (p : Pins) (m : Machine) : Machine :=
  let r := resetReportBuffer m.reportBuffer
  let r := leftJoystickDirections m.config p r
  let r := rightJoystickDirections m.config p r
  let r := digitalPadDirections m.config p r
  let buttonsNow := sampleButtons b m.config p
  let out := autofire b p buttonsNow m.af
  let buttonsNow := out.2
  let r := { r with buttons1 := buttonsNow &&& 0xff,
                    buttons2 := (buttonsNow >>> 8) &&& 0xff }
  { m with reportBuffer := r, af := out.1 }

/-! ## Main loop (lines 648-707) -/

/-- The seven bytes handed to `usbSetInterrupt` on line 705. -/
def Report.wire (r : Report) : List Nat :=
  [r.buttons1, r.buttons2, r.hatswitch, r.x, r.y, r.z, r.rz]

/-- What the USB driver does during one pass of the loop: the setup request, if
any, that `usbPoll` hands to `usbFunctionSetup`, and the answer of
`usbInterruptIsReady`. -/
structure Usb where
  setup : Option (Nat × Nat)
  interruptIsReady : Bool
  deriving DecidableEq, Repr

/-- Line 649: `usbPoll()`, as far as it touches the globals of this file. -/
def usbPoll (u : Usb) (m : Machine) : Machine :=
  match u.setup with
  | some (bmRequestType, bRequest) =>
    { m with reportBuffer := (usbFunctionSetup bmRequestType bRequest m.reportBuffer).1 }
  | none => m

/-- Lines 648-707: one pass of the main event loop.  Returns the new state and
the report sent on the interrupt endpoint, if one was sent. -/
def mainLoopPass (b : Build) (u : Usb) (p : Pins) (m : Machine) :
    Machine × Option (List Nat) :=
  let m := usbPoll u m
  let m := modeGesture p m
  if u.interruptIsReady then
    let m := ReadJoystick b p m
    (m, some m.reportBuffer.wire)
  else (m, none)

/-! ## Runs of the main loop -/

/-- The state after the first `n` passes of the main loop from `m`, pass `i`
running with the USB activity `(ev i).1` and the pins `(ev i).2`. -/
def stateAt (b : Build) (ev : Nat → Usb × Pins) (m : Machine) : Nat → Machine
  | 0 => m
  | n + 1 => (mainLoopPass b (ev n).1 (ev n).2 (stateAt b ev m n)).1

/-- The 16-bit button vector carried by the two button bytes of a report. -/
def Report.buttons (r : Report) : Nat := r.buttons1 ||| (r.buttons2 <<< 8)

/-- A pass of the loop in which the interrupt endpoint is ready and no setup
request arrives: one tick. -/
def Usb.tick : Usb := { setup := none, interruptIsReady := true }

/-- The modulator bits of Select (bit 8), Start (bit 9) and Home (bit 12) are all
set, so gating lets these three buttons through. -/
def systemBitsPass (a : Autofire) : Prop :=
  a.autofireModulator.testBit 8 = true ∧ a.autofireModulator.testBit 9 = true
    ∧ a.autofireModulator.testBit 12 = true

/-- Lines 536-539: the modulator after the optional Start+Select reset of
CLEAR_AUTOFIRE builds, the first step of the autofire processing. -/
def clearAutofire (b : Build) (p : Pins) (autofireModulator : Nat) : Nat :=
  if b.CLEAR_AUTOFIRE && (!p.Stick_Start && !p.Stick_Select) then 0xffff
  else autofireModulator

/-! ## Sample states and inputs -/

/-- State of the globals when `main` starts: `config` holds its initialiser
`EEPROM_DEF` (line 97), the report buffer is zero-initialised, the statics of
`ReadJoystick` hold their initialisers, and the EEPROM cell holds `eeprom`. -/
def Machine.powerOn (eeprom : Nat) : Machine :=
  { config := EEPROM_DEF, config_EEPROM := eeprom,
    reportBuffer := { buttons1 := 0, buttons2 := 0, hatswitch := 0, x := 0, y := 0,
                      z := 0, rz := 0, extra := 0 },
    af := Autofire.boot }

/-- A build for the 16 MHz clock without the optional switches. -/
def Build.plain : Build :=
  { F_CPU := .mhz16, EXTRA_BUTTONS := false, CLEAR_AUTOFIRE := false }

/-- Two ticks: Select is pressed together with the mode modifier on the first
tick and stays pressed alone afterwards. -/
def selectUnderModifier (i : Nat) : Usb × Pins :=
  if i = 0 then (Usb.tick, { Pins.idle with Stick_Mode := false, Stick_Select := false })
  else (Usb.tick, { Pins.idle with Stick_Select := false })

/-- Two ticks: Start is pressed together with the mode modifier on the first
tick and stays pressed alone afterwards. -/
def startUnderModifier (i : Nat) : Usb × Pins :=
  if i = 0 then (Usb.tick, { Pins.idle with Stick_Mode := false, Stick_Start := false })
  else (Usb.tick, { Pins.idle with Stick_Start := false })

/-- Two ticks: Home is pressed together with the mode modifier on the first
tick and stays pressed alone afterwards. -/
def homeUnderModifier (i : Nat) : Usb × Pins :=
  if i = 0 then (Usb.tick, { Pins.idle with Stick_Mode := false, Stick_Home := false })
  else (Usb.tick, { Pins.idle with Stick_Home := false })

/-- A pass of the loop in which the interrupt endpoint is not ready, so that no
report is built. -/
def Usb.idle : Usb := { setup := none, interruptIsReady := false }

/-- Square held on every pass, the mode modifier released; every other pass is
a tick, the passes in between are idle. -/
def squareHeldSparse (i : Nat) : Usb × Pins :=
  (if i % 2 = 0 then Usb.tick else Usb.idle, { Pins.idle with Stick_Square := false })

/-- Left pressed together with the mode modifier, everything else released. -/
def Pins.modeLeft : Pins :=
  { Pins.idle with Stick_Mode := false, Stick_Left := false }

/-- Square held on every tick, the mode modifier released. -/
def squareHeld (_ : Nat) : Usb × Pins :=
  (Usb.tick, { Pins.idle with Stick_Square := false })

/-- The state after one tick from first power-on on which Square is pressed
together with the mode modifier, which enables autofire for Square. -/
def Machine.squareAutofire : Machine :=
  (mainLoopPass Build.plain Usb.tick
    { Pins.idle with Stick_Mode := false, Stick_Square := false }
    (configInit (Machine.powerOn 0xFF))).1

/-- A build for the 16 MHz clock with CLEAR_AUTOFIRE. -/
def Build.withClear : Build :=
  { F_CPU := .mhz16, EXTRA_BUTTONS := false, CLEAR_AUTOFIRE := true }

/-- Square pressed together with the mode modifier on the first tick, then
Start and Select pressed together without the modifier. -/
def squareThenReset (i : Nat) : Usb × Pins :=
  if i = 0 then (Usb.tick, { Pins.idle with Stick_Mode := false, Stick_Square := false })
  else (Usb.tick, { Pins.idle with Stick_Start := false, Stick_Select := false })

/-- Square pressed together with the mode modifier. -/
def Pins.modeSquare : Pins :=
  { Pins.idle with Stick_Mode := false, Stick_Square := false }

/-- Only the mode modifier held. -/
def Pins.modeOnly : Pins :=
  { Pins.idle with Stick_Mode := false }

/-! ## Reference tables used to state the properties -/

/-- Net vertical direction of the stick. -/
inductive Vertical where
  | up
  | down
  | centre
  deriving DecidableEq, Repr

/-- Net horizontal direction of the stick. -/
inductive Horizontal where
  | left
  | right
  | centre
  deriving DecidableEq, Repr

/-- Up pressed and down not, down pressed and up not, neither or both. -/
def netVertical (up down : Bool) : Vertical :=
  if up && !down then .up else if down && !up then .down else .centre

/-- Left pressed and right not, right pressed and left not, neither or both. -/
def netHorizontal (left right : Bool) : Horizontal :=
  if left && !right then .left else if right && !left then .right else .centre

/-- The nine hat codes: N=0, NE=1, E=2, SE=3, S=4, SW=5, W=6, NW=7, neutral=8. -/
def hatTable : Vertical → Horizontal → Nat
  | .up, .centre => 0
  | .up, .right => 1
  | .centre, .right => 2
  | .down, .right => 3
  | .down, .centre => 4
  | .down, .left => 5
  | .centre, .left => 6
  | .up, .left => 7
  | .centre, .centre => 8

/-- Axis byte for a pair of opposing directions: `0x00` when only the first is
pressed, `0xFF` when only the second is, `0x80` otherwise. -/
def axisTable (first second : Bool) : Nat :=
  if first && !second then 0x00 else if second && !first then 0xFF else 0x80

/-- The direction fields of the buffer after the three direction steps of
`ReadJoystick`, which the button bytes written afterwards do not touch. -/
def directions (config : Nat) (p : Pins) (r : Report) : Report :=
  digitalPadDirections config p
    (rightJoystickDirections config p
      (leftJoystickDirections config p (resetReportBuffer r)))

/-- The Start+Select combination acting as Home (line 522). -/
def homeCombo (config : Nat) (p : Pins) : Bool :=
  config.testBit 4 && !p.Stick_Start && !p.Stick_Select

/-- The four commit operations of the mode gesture. -/
def commits : List (Machine → Machine) :=
  [enterDigitalPadMode, enterLeftStickMode, enterRightStickMode,
   enterLeftStickDigitalPadMode]

/-- The stick flags of a configuration byte: left stick (bit 1), digital pad
(bit 2), right stick (bit 3). -/
def stickFlags (config : Nat) : Bool × Bool × Bool :=
  (config.testBit 1, config.testBit 2, config.testBit 3)

/-- The rising edges of the eligible buttons as the comments on lines 541-551
describe them, for 16-bit vectors: set in `curr`, clear in `prev`, and selected
by the mask. -/
def risingEdges (prev curr : Nat) : Nat :=
  curr &&& (0xffff ^^^ prev) &&& pressEventMask

/-- Select held together with the mode modifier on every tick. -/
def selectHeldUnderModifier (_ : Nat) : Usb × Pins :=
  (Usb.tick, { Pins.idle with Stick_Mode := false, Stick_Select := false })

/-- The four configuration bytes with pad only, left stick only, right stick
only, or pad plus left stick, and every other bit clear. -/
def reachableConfig (config : Nat) : Prop :=
  config = 0x04 ∨ config = 0x02 ∨ config = 0x08 ∨ config = 0x06

/-- The four combinations of stick flags (left, pad, right) that the mode
gestures set. -/
def gestureFlags (flags : Bool × Bool × Bool) : Prop :=
  flags = (false, true, false) ∨ flags = (true, false, false)
    ∨ flags = (false, false, true) ∨ flags = (true, true, false)

/-- Number of ticks among the first `n` passes of the loop: the passes in which
the interrupt endpoint is ready, so that `ReadJoystick` runs. -/
def tickCount (ev : Nat → Usb × Pins) : Nat → Nat
  | 0 => 0
  | n + 1 => tickCount ev n + (if (ev n).1.interruptIsReady then 1 else 0)

/-! ## Bit-level lemmas -/

theorem and_one_shiftLeft_ne_zero (c k : Nat) :
    (c &&& (1 <<< k) != 0) = c.testBit k := by
  rw [Nat.one_shiftLeft]
  cases h : c.testBit k
  · have h0 : c &&& 2 ^ k = 0 := by
      apply Nat.eq_of_testBit_eq
      intro i
      by_cases hik : k = i
      · subst hik; simp [h]
      · simp [Nat.testBit_two_pow, hik]
    simp [h0]
  · have h1 : (c &&& 2 ^ k).testBit k = true := by simp [h, Nat.testBit_two_pow_self]
    simp only [bne_iff_ne, ne_eq]
    intro h0
    rw [h0] at h1
    simp at h1

theorem CFG_LEFT_STICK_eq (c : Nat) : CFG_LEFT_STICK c = c.testBit 1 :=
  and_one_shiftLeft_ne_zero c 1

theorem CFG_DIGITAL_PAD_eq (c : Nat) : CFG_DIGITAL_PAD c = c.testBit 2 :=
  and_one_shiftLeft_ne_zero c 2

theorem CFG_RIGHT_STICK_eq (c : Nat) : CFG_RIGHT_STICK c = c.testBit 3 :=
  and_one_shiftLeft_ne_zero c 3

theorem CFG_HOME_EMU_eq (c : Nat) : CFG_HOME_EMU c = c.testBit 4 :=
  and_one_shiftLeft_ne_zero c 4

theorem testBit_orIf (c : Bool) (x k i : Nat) :
    (orIf c x k).testBit i = (x.testBit i || (c && decide (k = i))) := by
  cases c <;> simp [orIf, Nat.one_shiftLeft, Nat.testBit_two_pow]

/-! ## Directions -/

theorem ReadJoystick_reportBuffer (b : Build) (p : Pins) (m : Machine) :
    (ReadJoystick b p m).reportBuffer
      = { directions m.config p m.reportBuffer with
          buttons1 := (autofire b p (sampleButtons b m.config p) m.af).2 &&& 0xff,
          buttons2 := ((autofire b p (sampleButtons b m.config p) m.af).2 >>> 8) &&& 0xff } :=
  rfl

theorem directions_eq (config : Nat) (p : Pins) (r : Report) :
    directions config p r =
      { buttons1 := 0, buttons2 := 0, extra := 0,
        hatswitch := if config.testBit 2 then
            hatTable (netVertical (!p.Stick_Up) (!p.Stick_Down))
              (netHorizontal (!p.Stick_Left) (!p.Stick_Right))
          else 0x08,
        x := if config.testBit 1 then axisTable (!p.Stick_Left) (!p.Stick_Right) else 0x80,
        y := if config.testBit 1 then axisTable (!p.Stick_Up) (!p.Stick_Down) else 0x80,
        z := if config.testBit 3 then axisTable (!p.Stick_Left) (!p.Stick_Right) else 0x80,
        rz := if config.testBit 3 then axisTable (!p.Stick_Up) (!p.Stick_Down) else 0x80 } := by
  obtain ⟨u, d, l, r, _⟩ := p
  rw [directions, leftJoystickDirections, rightJoystickDirections, digitalPadDirections,
    ← CFG_DIGITAL_PAD_eq, ← CFG_LEFT_STICK_eq, ← CFG_RIGHT_STICK_eq]
  generalize CFG_DIGITAL_PAD config = c2
  generalize CFG_LEFT_STICK config = c1
  generalize CFG_RIGHT_STICK config = c3
  cases c2 <;> cases c1 <;> cases c3 <;> cases u <;> cases d <;> cases l <;> cases r <;>
    simp [resetReportBuffer, hatTable, netVertical, netHorizontal, axisTable]

/-- C1: with the digital-pad flag (bit 2) set, the hat byte that ReadJoystick
writes is the nine-entry table applied to the net vertical and the net horizontal
direction (N=0, NE=1, E=2, SE=3, S=4, SW=5, W=6, NW=7, neutral=8); in particular
up+right gives 1, up+down alone gives 8, up+down+right gives 2 and no direction
gives 8. -/
theorem hat_follows_table (b : Build) (p : Pins) (m : Machine)
    (hpad : m.config.testBit 2 = true) :
    (ReadJoystick b p m).reportBuffer.hatswitch
        = hatTable (netVertical (!p.Stick_Up) (!p.Stick_Down))
            (netHorizontal (!p.Stick_Left) (!p.Stick_Right))
    ∧ (p.Stick_Up = false → p.Stick_Right = false → p.Stick_Down = true →
        p.Stick_Left = true → (ReadJoystick b p m).reportBuffer.hatswitch = 1)
    ∧ (p.Stick_Up = false → p.Stick_Down = false → p.Stick_Left = true →
        p.Stick_Right = true → (ReadJoystick b p m).reportBuffer.hatswitch = 8)
    ∧ (p.Stick_Up = false → p.Stick_Down = false → p.Stick_Right = false →
        p.Stick_Left = true → (ReadJoystick b p m).reportBuffer.hatswitch = 2)
    ∧ (p.Stick_Up = true → p.Stick_Down = true → p.Stick_Left = true →
        p.Stick_Right = true → (ReadJoystick b p m).reportBuffer.hatswitch = 8) := by
  rw [ReadJoystick_reportBuffer, directions_eq]
  simp only [hpad, if_true]
  refine ⟨trivial, ?_, ?_, ?_, ?_⟩ <;> intro h1 h2 h3 h4 <;>
    simp [h1, h2, h3, h4, hatTable, netVertical, netHorizontal]

/-- Witness of C1: pad-only configuration `0x04`, up and right pressed. -/
theorem hat_follows_table_witness :
    Nat.testBit 0x04 2 = true ∧
    (ReadJoystick Build.plain { Pins.idle with Stick_Up := false, Stick_Right := false }
      { Machine.powerOn 0x04 with config := 0x04 }).reportBuffer.hatswitch = 1 :=
  ⟨by decide,
   (hat_follows_table Build.plain { Pins.idle with Stick_Up := false, Stick_Right := false }
      { Machine.powerOn 0x04 with config := 0x04 } (by decide)).2.1 rfl rfl rfl rfl⟩

/-- C2: on each stick whose enable flag is set (left stick: bit 1, axes x and y;
right stick: bit 3, axes z and rz) the vertical axis is `0x00` for up without
down, `0xFF` for down without up and `0x80` otherwise, the horizontal axis is
`0x00` for left without right, `0xFF` for right without left and `0x80`
otherwise; so up+down or left+right give `0x80` on that axis, and the right
stick follows the same rule as the left. -/
theorem stick_axes (b : Build) (p : Pins) (m : Machine) :
    (m.config.testBit 1 = true →
      (ReadJoystick b p m).reportBuffer.y = axisTable (!p.Stick_Up) (!p.Stick_Down)
      ∧ (ReadJoystick b p m).reportBuffer.x = axisTable (!p.Stick_Left) (!p.Stick_Right)
      ∧ (p.Stick_Up = false → p.Stick_Down = false →
          (ReadJoystick b p m).reportBuffer.y = 0x80)
      ∧ (p.Stick_Left = false → p.Stick_Right = false →
          (ReadJoystick b p m).reportBuffer.x = 0x80))
    ∧ (m.config.testBit 3 = true →
      (ReadJoystick b p m).reportBuffer.rz = axisTable (!p.Stick_Up) (!p.Stick_Down)
      ∧ (ReadJoystick b p m).reportBuffer.z = axisTable (!p.Stick_Left) (!p.Stick_Right)
      ∧ (p.Stick_Up = false → p.Stick_Down = false →
          (ReadJoystick b p m).reportBuffer.rz = 0x80)
      ∧ (p.Stick_Left = false → p.Stick_Right = false →
          (ReadJoystick b p m).reportBuffer.z = 0x80)) := by
  rw [ReadJoystick_reportBuffer, directions_eq]
  constructor <;> intro hc <;> simp only [hc, if_true] <;>
    refine ⟨trivial, trivial, ?_, ?_⟩ <;> intro h1 h2 <;> simp [h1, h2, axisTable]

/-- Witness of C2: both sticks enabled (`0x0A`), up, down and left pressed. -/
theorem stick_axes_witness :
    (Nat.testBit 0x0A 1 = true ∧ Nat.testBit 0x0A 3 = true) ∧
    ((ReadJoystick Build.plain
        { Pins.idle with Stick_Up := false, Stick_Down := false, Stick_Left := false }
        { Machine.powerOn 0x0A with config := 0x0A }).reportBuffer.y = 0x80
     ∧ (ReadJoystick Build.plain
        { Pins.idle with Stick_Up := false, Stick_Down := false, Stick_Left := false }
        { Machine.powerOn 0x0A with config := 0x0A }).reportBuffer.rz = 0x80) :=
  ⟨⟨by decide, by decide⟩,
   ((stick_axes Build.plain
        { Pins.idle with Stick_Up := false, Stick_Down := false, Stick_Left := false }
        { Machine.powerOn 0x0A with config := 0x0A }).1 (by decide)).2.2.1 rfl rfl,
   ((stick_axes Build.plain
        { Pins.idle with Stick_Up := false, Stick_Down := false, Stick_Left := false }
        { Machine.powerOn 0x0A with config := 0x0A }).2 (by decide)).2.2.1 rfl rfl⟩

/-- C3: each directional output is active only if its own flag is set: with the
left-stick flag (bit 1) clear x = y = `0x80`, with the right-stick flag (bit 3)
clear z = rz = `0x80`, and with the digital-pad flag (bit 2) clear the hat is the
neutral code `0x08`, whatever directions are pressed. -/
theorem outputs_gated_by_flags (b : Build) (p : Pins) (m : Machine) :
    (m.config.testBit 1 = false →
      (ReadJoystick b p m).reportBuffer.x = 0x80 ∧ (ReadJoystick b p m).reportBuffer.y = 0x80)
    ∧ (m.config.testBit 3 = false →
      (ReadJoystick b p m).reportBuffer.z = 0x80 ∧ (ReadJoystick b p m).reportBuffer.rz = 0x80)
    ∧ (m.config.testBit 2 = false →
      (ReadJoystick b p m).reportBuffer.hatswitch = 0x08) := by
  rw [ReadJoystick_reportBuffer, directions_eq]
  refine ⟨?_, ?_, ?_⟩ <;> intro hc <;> simp [hc]

/-- Witness of C3: every stick flag clear (`0x10`), up and left pressed. -/
theorem outputs_gated_by_flags_witness :
    (Nat.testBit 0x10 1 = false ∧ Nat.testBit 0x10 3 = false ∧ Nat.testBit 0x10 2 = false) ∧
    (ReadJoystick Build.plain { Pins.idle with Stick_Up := false, Stick_Left := false }
        { Machine.powerOn 0x10 with config := 0x10 }).reportBuffer.x = 0x80 ∧
    (ReadJoystick Build.plain { Pins.idle with Stick_Up := false, Stick_Left := false }
        { Machine.powerOn 0x10 with config := 0x10 }).reportBuffer.rz = 0x80 ∧
    (ReadJoystick Build.plain { Pins.idle with Stick_Up := false, Stick_Left := false }
        { Machine.powerOn 0x10 with config := 0x10 }).reportBuffer.hatswitch = 0x08 :=
  ⟨⟨by decide, by decide, by decide⟩,
   ((outputs_gated_by_flags Build.plain
      { Pins.idle with Stick_Up := false, Stick_Left := false }
      { Machine.powerOn 0x10 with config := 0x10 }).1 (by decide)).1,
   ((outputs_gated_by_flags Build.plain
      { Pins.idle with Stick_Up := false, Stick_Left := false }
      { Machine.powerOn 0x10 with config := 0x10 }).2.1 (by decide)).2,
   (outputs_gated_by_flags Build.plain
      { Pins.idle with Stick_Up := false, Stick_Left := false }
      { Machine.powerOn 0x10 with config := 0x10 }).2.2 (by decide)⟩

/-! ## Buttons -/

theorem ReadJoystick_lastButtons (b : Build) (p : Pins) (m : Machine) :
    (ReadJoystick b p m).af.lastButtons = sampleButtons b m.config p :=
  rfl

theorem testBit_4096 (i : Nat) : Nat.testBit 4096 i = decide (12 = i) :=
  @Nat.testBit_two_pow 12 i

/-- Every bit of the raw button vector. -/
theorem testBit_sampleButtons (b : Build) (config : Nat) (p : Pins) (i : Nat) :
    (sampleButtons b config p).testBit i =
      ((!p.Stick_Square && decide (0 = i)) || (!p.Stick_Cross && decide (1 = i))
        || (!p.Stick_Circle && decide (2 = i)) || (!p.Stick_Triangle && decide (3 = i))
        || (b.EXTRA_BUTTONS && !p.Stick_L1 && decide (4 = i))
        || (!p.Stick_R1 && decide (5 = i))
        || (b.EXTRA_BUTTONS && !p.Stick_L2 && decide (6 = i))
        || (!p.Stick_R2 && decide (7 = i))
        || (!homeCombo config p && !p.Stick_Select && decide (8 = i))
        || (!homeCombo config p && !p.Stick_Start && decide (9 = i))
        || (!p.Stick_L3 && decide (10 = i)) || (!p.Stick_R3 && decide (11 = i))
        || ((!p.Stick_Home || homeCombo config p) && decide (12 = i))) := by
  unfold sampleButtons homeCombo
  rw [CFG_HOME_EMU_eq]
  generalize config.testBit 4 = c4
  cases hx : b.EXTRA_BUTTONS <;> cases c4 <;> cases hs : p.Stick_Start <;>
    cases ht : p.Stick_Select <;>
    simp [testBit_orIf, Nat.one_shiftLeft, testBit_4096, Bool.or_assoc] <;>
    (by_cases h12 : 12 = i
     · subst h12; simp
     · simp [h12])

/-- C4: the raw button vector that ReadJoystick samples (kept in `lastButtons`,
before autofire gating) is `sampleButtons`; when the combo flag (bit 4) is set and
Start and Select are both pressed, bit 12 (button 13) is set and bits 8 and 9
(buttons 9 and 10) are clear; otherwise bit 8 is "Select pressed" and bit 9 is
"Start pressed"; every other button drives exactly its own bit (buttons 1-8, 11,
12, Home on button 13, L1 and L2 only with EXTRA_BUTTONS), and no bit from 13
upwards is ever set. -/
theorem raw_button_vector (b : Build) (p : Pins) (m : Machine) :
    (ReadJoystick b p m).af.lastButtons = sampleButtons b m.config p
    ∧ (m.config.testBit 4 = true ∧ p.Stick_Start = false ∧ p.Stick_Select = false →
        (sampleButtons b m.config p).testBit 12 = true
        ∧ (sampleButtons b m.config p).testBit 8 = false
        ∧ (sampleButtons b m.config p).testBit 9 = false)
    ∧ (¬ (m.config.testBit 4 = true ∧ p.Stick_Start = false ∧ p.Stick_Select = false) →
        (sampleButtons b m.config p).testBit 8 = !p.Stick_Select
        ∧ (sampleButtons b m.config p).testBit 9 = !p.Stick_Start)
    ∧ ((sampleButtons b m.config p).testBit 0 = !p.Stick_Square
        ∧ (sampleButtons b m.config p).testBit 1 = !p.Stick_Cross
        ∧ (sampleButtons b m.config p).testBit 2 = !p.Stick_Circle
        ∧ (sampleButtons b m.config p).testBit 3 = !p.Stick_Triangle
        ∧ (sampleButtons b m.config p).testBit 4 = (b.EXTRA_BUTTONS && !p.Stick_L1)
        ∧ (sampleButtons b m.config p).testBit 5 = !p.Stick_R1
        ∧ (sampleButtons b m.config p).testBit 6 = (b.EXTRA_BUTTONS && !p.Stick_L2)
        ∧ (sampleButtons b m.config p).testBit 7 = !p.Stick_R2
        ∧ (sampleButtons b m.config p).testBit 10 = !p.Stick_L3
        ∧ (sampleButtons b m.config p).testBit 11 = !p.Stick_R3
        ∧ (sampleButtons b m.config p).testBit 12
            = (!p.Stick_Home || (m.config.testBit 4 && !p.Stick_Start && !p.Stick_Select)))
    ∧ (∀ i, 13 ≤ i → (sampleButtons b m.config p).testBit i = false) := by
  refine ⟨rfl, ?_, ?_, ?_, ?_⟩
  · rintro ⟨h4, hs, ht⟩
    simp [testBit_sampleButtons, homeCombo, h4, hs, ht]
  · intro hn
    have hc : homeCombo m.config p = false := by
      cases h4 : m.config.testBit 4 <;> cases hs : p.Stick_Start <;>
        cases ht : p.Stick_Select <;> simp_all [homeCombo]
    simp [testBit_sampleButtons, hc]
  · simp only [testBit_sampleButtons]
    simp [homeCombo]
  · intro i hi
    have h0 : ∀ k, k < 13 → decide (k = i) = false := by
      intro k hk
      simp only [decide_eq_false_iff_not]
      omega
    simp [testBit_sampleButtons, h0]

/-- Witness of C4: combo flag set (`0x14`), Start and Select both pressed. -/
theorem raw_button_vector_witness :
    (Nat.testBit 0x14 4 = true ∧ Pins.idle.Stick_Home = true) ∧
    (sampleButtons Build.plain ({ Machine.powerOn 0x14 with config := 0x14 }).config
        { Pins.idle with Stick_Start := false, Stick_Select := false }).testBit 12 = true ∧
    (sampleButtons Build.plain ({ Machine.powerOn 0x14 with config := 0x14 }).config
        { Pins.idle with Stick_Start := false, Stick_Select := false }).testBit 8 = false ∧
    (sampleButtons Build.plain ({ Machine.powerOn 0x14 with config := 0x14 }).config
        { Pins.idle with Stick_Start := false, Stick_Select := false }).testBit 9 = false :=
  ⟨⟨by decide, rfl⟩,
   (raw_button_vector Build.plain { Pins.idle with Stick_Start := false, Stick_Select := false }
      { Machine.powerOn 0x14 with config := 0x14 }).2.1 ⟨by decide, rfl, rfl⟩⟩

/-! ## Configuration store -/

/-- C5: when the persisted byte is the sentinel `0xFF`, configInit leaves the
in-memory configuration equal to the default `0b00000100` (digital pad enabled,
every other flag off) and the persistent byte holds that default when it returns;
when the persisted byte is any other value, the in-memory configuration becomes
that value as it is (and the persistent byte is not touched). -/
theorem configInit_load (m : Machine) :
    (m.config_EEPROM = 0xFF →
      (configInit m).config = 0b00000100 ∧ (configInit m).config_EEPROM = 0b00000100)
    ∧ (m.config_EEPROM ≠ 0xFF →
      (configInit m).config = m.config_EEPROM
      ∧ (configInit m).config_EEPROM = m.config_EEPROM)
    ∧ (CFG_DIGITAL_PAD 0b00000100 = true ∧ CFG_LEFT_STICK 0b00000100 = false
      ∧ CFG_RIGHT_STICK 0b00000100 = false ∧ CFG_HOME_EMU 0b00000100 = false
      ∧ ∀ i, i ≠ 2 → Nat.testBit 0b00000100 i = false) := by
  refine ⟨?_, ?_, by decide, by decide, by decide, by decide, ?_⟩
  · intro h
    simp [configInit, h, EEPROM_DEF, CONFIG_DEF]
  · intro h
    simp [configInit, h, EEPROM_DEF, CONFIG_DEF]
  · intro i hi
    have h := @Nat.testBit_two_pow 2 i
    simpa [Ne.symm hi] using h

/-- Witness of C5: first power-on with an erased EEPROM, and with `0x12` stored. -/
theorem configInit_load_witness :
    ((Machine.powerOn 0xFF).config_EEPROM = 0xFF ∧ (Machine.powerOn 0x12).config_EEPROM ≠ 0xFF)
    ∧ ((configInit (Machine.powerOn 0xFF)).config = 0b00000100
      ∧ (configInit (Machine.powerOn 0xFF)).config_EEPROM = 0b00000100)
    ∧ (configInit (Machine.powerOn 0x12)).config = 0x12 :=
  ⟨⟨rfl, by decide⟩, (configInit_load (Machine.powerOn 0xFF)).1 rfl,
   ((configInit_load (Machine.powerOn 0x12)).2.1 (by decide)).1⟩

theorem testBit_setBit (c k i : Nat) :
    (setBit c k).testBit i = (decide (i < 8) && (c.testBit i || decide (k = i))) := by
  have h : (256 : Nat) = 2 ^ 8 := by norm_num
  rw [setBit, h, Nat.testBit_mod_two_pow, Nat.testBit_or, Nat.one_shiftLeft,
    Nat.testBit_two_pow]

theorem testBit_clrBit (c k i : Nat) :
    (clrBit c k).testBit i = (decide (i < 8) && (c.testBit i && !decide (k = i))) := by
  have h : (256 : Nat) = 2 ^ 8 := by norm_num
  have h2 : (0xFF : Nat) = 2 ^ 8 - 1 := by norm_num
  rw [clrBit, h, Nat.testBit_mod_two_pow, Nat.testBit_and, Nat.testBit_xor,
    Nat.one_shiftLeft, Nat.testBit_two_pow, h2, Nat.testBit_two_pow_sub_one]
  by_cases h8 : i < 8 <;> by_cases hk : k = i <;> simp [h8, hk]

/-- Bits of the configuration after `enterLeftStickMode`. -/
theorem testBit_enterLeftStickMode (m : Machine) (i : Nat) :
    (enterLeftStickMode m).config.testBit i =
      (decide (i < 8) && (decide (i = 1) || (m.config.testBit i && !decide (i = 2)
        && !decide (i = 3)))) := by
  simp only [enterLeftStickMode, testBit_setBit, testBit_clrBit]
  by_cases h8 : i < 8 <;> by_cases h1 : i = 1 <;> by_cases h2 : i = 2 <;>
    by_cases h3 : i = 3 <;> simp [h8, h1, h2, h3, eq_comm]

/-- Bits of the configuration after `enterRightStickMode`. -/
theorem testBit_enterRightStickMode (m : Machine) (i : Nat) :
    (enterRightStickMode m).config.testBit i =
      (decide (i < 8) && (decide (i = 3) || (m.config.testBit i && !decide (i = 1)
        && !decide (i = 2)))) := by
  simp only [enterRightStickMode, testBit_setBit, testBit_clrBit]
  by_cases h8 : i < 8 <;> by_cases h1 : i = 1 <;> by_cases h2 : i = 2 <;>
    by_cases h3 : i = 3 <;> simp [h8, h1, h2, h3, eq_comm]

/-- Bits of the configuration after `enterDigitalPadMode`. -/
theorem testBit_enterDigitalPadMode (m : Machine) (i : Nat) :
    (enterDigitalPadMode m).config.testBit i =
      (decide (i < 8) && (decide (i = 2) || (m.config.testBit i && !decide (i = 1)
        && !decide (i = 3)))) := by
  simp only [enterDigitalPadMode, testBit_setBit, testBit_clrBit]
  by_cases h8 : i < 8 <;> by_cases h1 : i = 1 <;> by_cases h2 : i = 2 <;>
    by_cases h3 : i = 3 <;> simp [h8, h1, h2, h3, eq_comm]

/-- Bits of the configuration after `enterLeftStickDigitalPadMode`. -/
theorem testBit_enterLeftStickDigitalPadMode (m : Machine) (i : Nat) :
    (enterLeftStickDigitalPadMode m).config.testBit i =
      (decide (i < 8) && (decide (i = 1) || decide (i = 2)
        || (m.config.testBit i && !decide (i = 3)))) := by
  simp only [enterLeftStickDigitalPadMode, testBit_setBit, testBit_clrBit]
  by_cases h8 : i < 8 <;> by_cases h1 : i = 1 <;> by_cases h2 : i = 2 <;>
    by_cases h3 : i = 3 <;> simp [h8, h1, h2, h3, eq_comm]

theorem ne_of_testBit_false (c k : Nat) (h : c.testBit k = false)
    (hk : Nat.testBit 0xFF k = true) : c ≠ 0xFF := by
  intro hc
  rw [hc, hk] at h
  exact Bool.noConfusion h

theorem configInit_config_of_ne (r : Machine) (v : Nat) (hv : v ≠ 0xFF) :
    (configInit { r with config_EEPROM := v }).config = v := by
  simp [configInit, EEPROM_DEF, hv]

theorem commit_ne_sentinel (commit : Machine → Machine) (hc : commit ∈ commits)
    (m : Machine) : (commit m).config ≠ 0xFF ∧ (commit m).config_EEPROM = (commit m).config := by
  simp only [commits, List.mem_cons, List.mem_singleton, List.not_mem_nil, or_false] at hc
  rcases hc with h | h | h | h <;> subst h <;> refine ⟨?_, rfl⟩
  · exact ne_of_testBit_false _ 3 (by simp [testBit_enterDigitalPadMode]) (by decide)
  · exact ne_of_testBit_false _ 3 (by simp [testBit_enterLeftStickMode]) (by decide)
  · exact ne_of_testBit_false _ 1 (by simp [testBit_enterRightStickMode]) (by decide)
  · exact ne_of_testBit_false _ 3 (by simp [testBit_enterLeftStickDigitalPadMode]) (by decide)

/-- C6: round trip across a reboot.  For every configuration and each of the four
gesture commits, the committed value is never the sentinel `0xFF`, and configInit
run on the storage left by the commit (whatever the RAM holds at that moment, in
particular after power-on) yields an in-memory configuration identical to the
committed value; a stored sentinel `0xFF` always loads as the default `0x04`. -/
theorem commit_reload_roundtrip (m r : Machine) :
    (∀ commit ∈ commits,
      (commit m).config ≠ 0xFF
      ∧ (configInit { r with config_EEPROM := (commit m).config_EEPROM }).config
          = (commit m).config
      ∧ (configInit (Machine.powerOn (commit m).config_EEPROM)).config = (commit m).config)
    ∧ (configInit { r with config_EEPROM := 0xFF }).config = 0x04
    ∧ (configInit (Machine.powerOn 0xFF)).config = 0x04 := by
  refine ⟨?_, by simp [configInit, EEPROM_DEF, CONFIG_DEF], by decide⟩
  intro commit hc
  obtain ⟨hne, heq⟩ := commit_ne_sentinel commit hc m
  refine ⟨hne, ?_, ?_⟩
  · rw [heq]
    exact configInit_config_of_ne r _ hne
  · rw [heq]
    exact configInit_config_of_ne (Machine.powerOn 0) _ hne

/-- Witness of C6: committing left-stick mode from the default and rebooting. -/
theorem commit_reload_roundtrip_witness :
    enterLeftStickMode ∈ commits ∧
    (configInit (Machine.powerOn
        (enterLeftStickMode (configInit (Machine.powerOn 0xFF))).config_EEPROM)).config
      = (enterLeftStickMode (configInit (Machine.powerOn 0xFF))).config :=
  ⟨by simp [commits],
   ((commit_reload_roundtrip (configInit (Machine.powerOn 0xFF)) (Machine.powerOn 0)).1
      enterLeftStickMode (by simp [commits])).2.2⟩

/-! ## Mode gesture -/

theorem stickFlags_enterDigitalPadMode (m : Machine) :
    stickFlags (enterDigitalPadMode m).config = (false, true, false) := by
  simp [stickFlags, testBit_enterDigitalPadMode]

theorem stickFlags_enterLeftStickMode (m : Machine) :
    stickFlags (enterLeftStickMode m).config = (true, false, false) := by
  simp [stickFlags, testBit_enterLeftStickMode]

theorem stickFlags_enterRightStickMode (m : Machine) :
    stickFlags (enterRightStickMode m).config = (false, false, true) := by
  simp [stickFlags, testBit_enterRightStickMode]

theorem stickFlags_enterLeftStickDigitalPadMode (m : Machine) :
    stickFlags (enterLeftStickDigitalPadMode m).config = (true, true, false) := by
  simp [stickFlags, testBit_enterLeftStickDigitalPadMode]

/-- C7: with the mode modifier held, the gesture handler acts on the first
pressed direction in the order up, left, right, down, and the resulting stick
flags (left, pad, right) depend on that direction alone: up gives pad only, left
gives left stick only, right gives right stick only, down gives pad plus left;
with no direction pressed, or the modifier not held, nothing changes.  Hence
mode+up followed by mode+left leaves left stick only. -/
theorem mode_gesture_priority (p : Pins) (m : Machine) :
    (p.Stick_Mode = false →
      (p.Stick_Up = false →
        modeGesture p m = enterDigitalPadMode m
        ∧ stickFlags (modeGesture p m).config = (false, true, false))
      ∧ (p.Stick_Up = true → p.Stick_Left = false →
        modeGesture p m = enterLeftStickMode m
        ∧ stickFlags (modeGesture p m).config = (true, false, false))
      ∧ (p.Stick_Up = true → p.Stick_Left = true → p.Stick_Right = false →
        modeGesture p m = enterRightStickMode m
        ∧ stickFlags (modeGesture p m).config = (false, false, true))
      ∧ (p.Stick_Up = true → p.Stick_Left = true → p.Stick_Right = true →
          p.Stick_Down = false →
        modeGesture p m = enterLeftStickDigitalPadMode m
        ∧ stickFlags (modeGesture p m).config = (true, true, false))
      ∧ (p.Stick_Up = true → p.Stick_Left = true → p.Stick_Right = true →
          p.Stick_Down = true → modeGesture p m = m))
    ∧ (p.Stick_Mode = true → modeGesture p m = m)
    ∧ (∀ q : Pins, p.Stick_Mode = false → p.Stick_Up = false →
        q.Stick_Mode = false → q.Stick_Up = true → q.Stick_Left = false →
        stickFlags (modeGesture q (modeGesture p m)).config = (true, false, false)) := by
  refine ⟨fun hm => ⟨?_, ?_, ?_, ?_, ?_⟩, ?_, ?_⟩
  · intro hu
    have h : modeGesture p m = enterDigitalPadMode m := by
      simp [modeGesture, DEFAULT_ACTION_BUTTON, hm, hu]
    exact ⟨h, by rw [h, stickFlags_enterDigitalPadMode]⟩
  · intro hu hl
    have h : modeGesture p m = enterLeftStickMode m := by
      simp [modeGesture, DEFAULT_ACTION_BUTTON, hm, hu, hl]
    exact ⟨h, by rw [h, stickFlags_enterLeftStickMode]⟩
  · intro hu hl hr
    have h : modeGesture p m = enterRightStickMode m := by
      simp [modeGesture, DEFAULT_ACTION_BUTTON, hm, hu, hl, hr]
    exact ⟨h, by rw [h, stickFlags_enterRightStickMode]⟩
  · intro hu hl hr hd
    have h : modeGesture p m = enterLeftStickDigitalPadMode m := by
      simp [modeGesture, DEFAULT_ACTION_BUTTON, hm, hu, hl, hr, hd]
    exact ⟨h, by rw [h, stickFlags_enterLeftStickDigitalPadMode]⟩
  · intro hu hl hr hd
    simp [modeGesture, DEFAULT_ACTION_BUTTON, hm, hu, hl, hr, hd]
  · intro hm
    simp [modeGesture, DEFAULT_ACTION_BUTTON, hm]
  · intro q _ _ hqm hqu hql
    have h : modeGesture q (modeGesture p m) = enterLeftStickMode (modeGesture p m) := by
      simp [modeGesture, DEFAULT_ACTION_BUTTON, hqm, hqu, hql]
    rw [h, stickFlags_enterLeftStickMode]

/-- Witness of C7: from the right-stick configuration `0x08`, mode+up and then
mode+left. -/
theorem mode_gesture_priority_witness :
    (({ Pins.idle with Stick_Mode := false, Stick_Up := false } : Pins).Stick_Mode = false
      ∧ ({ Pins.idle with Stick_Mode := false, Stick_Left := false } : Pins).Stick_Left = false)
    ∧ stickFlags (modeGesture { Pins.idle with Stick_Mode := false, Stick_Left := false }
        (modeGesture { Pins.idle with Stick_Mode := false, Stick_Up := false }
          (configInit (Machine.powerOn 0x08)))).config = (true, false, false) :=
  ⟨⟨rfl, rfl⟩,
   (mode_gesture_priority { Pins.idle with Stick_Mode := false, Stick_Up := false }
      (configInit (Machine.powerOn 0x08))).2.2
      { Pins.idle with Stick_Mode := false, Stick_Left := false } rfl rfl rfl rfl rfl⟩

/-! ## Autofire -/

theorem usbPoll_af (u : Usb) (m : Machine) : (usbPoll u m).af = m.af := by
  unfold usbPoll
  split <;> rfl

theorem usbPoll_config (u : Usb) (m : Machine) : (usbPoll u m).config = m.config := by
  unfold usbPoll
  split <;> rfl

theorem modeGesture_af (p : Pins) (m : Machine) : (modeGesture p m).af = m.af := by
  unfold modeGesture
  split_ifs <;> rfl

theorem testBit_0xff (k : Nat) : Nat.testBit 0xff k = decide (k < 8) :=
  Nat.testBit_two_pow_sub_one 8 k

theorem testBit_0xffff (k : Nat) : Nat.testBit 0xffff k = decide (k < 16) :=
  Nat.testBit_two_pow_sub_one 16 k

/-- The two button bytes of the report carry the low 16 bits of the gated vector. -/
theorem testBit_buttons_ReadJoystick (b : Build) (p : Pins) (m : Machine) (k : Nat) :
    (ReadJoystick b p m).reportBuffer.buttons.testBit k
      = (decide (k < 16) && (autofire b p (sampleButtons b m.config p) m.af).2.testBit k) := by
  rw [ReadJoystick_reportBuffer]
  simp only [Report.buttons, Nat.testBit_or, Nat.testBit_and, Nat.testBit_shiftLeft,
    Nat.testBit_shiftRight, testBit_0xff]
  generalize (autofire b p (sampleButtons b m.config p) m.af).2 = g
  by_cases h8 : k < 8
  · have h16 : k < 16 := by omega
    have hge : ¬ k ≥ 8 := by omega
    simp [h8, h16, hge]
  · by_cases h16 : k < 16
    · have hge : k ≥ 8 := by omega
      have hsub : k - 8 < 8 := by omega
      have hadd : 8 + (k - 8) = k := by omega
      simp [h8, h16, hge, hsub, hadd]
    · have hge : k ≥ 8 := by omega
      have hsub : ¬ k - 8 < 8 := by omega
      simp [h8, h16, hge, hsub]

/-- The gated vector of one tick, in terms of the statics after the tick. -/
theorem autofire_gated (b : Build) (p : Pins) (raw : Nat) (a : Autofire) :
    (autofire b p raw a).2 =
      if (autofire b p raw a).1.autofireCounter < AUTOFIREMAX b / 2 ∧ p.Stick_Mode = true
      then raw &&& (autofire b p raw a).1.autofireModulator else raw := by
  simp only [autofire, DEFAULT_ACTION_BUTTON, Bool.and_eq_true, decide_eq_true_eq]

theorem autofire_lastButtons (b : Build) (p : Pins) (raw : Nat) (a : Autofire) :
    (autofire b p raw a).1.lastButtons = raw :=
  rfl

theorem mainLoopPass_ready (b : Build) (u : Usb) (p : Pins) (m : Machine)
    (h : u.interruptIsReady = true) :
    (mainLoopPass b u p m).1 = ReadJoystick b p (modeGesture p (usbPoll u m)) := by
  simp [mainLoopPass, h]

theorem mainLoopPass_not_ready (b : Build) (u : Usb) (p : Pins) (m : Machine)
    (h : u.interruptIsReady = false) :
    (mainLoopPass b u p m).1 = modeGesture p (usbPoll u m) := by
  simp [mainLoopPass, h]

theorem ReadJoystick_af (b : Build) (p : Pins) (m : Machine) :
    (ReadJoystick b p m).af = (autofire b p (sampleButtons b m.config p) m.af).1 :=
  rfl

/-- The statics after one pass of the loop. -/
theorem mainLoopPass_af (b : Build) (u : Usb) (p : Pins) (m : Machine) :
    (mainLoopPass b u p m).1.af =
      if u.interruptIsReady = true then
        (autofire b p (sampleButtons b (modeGesture p (usbPoll u m)).config p) m.af).1
      else m.af := by
  cases h : u.interruptIsReady
  · rw [mainLoopPass_not_ready b u p m h, modeGesture_af, usbPoll_af]
    simp
  · rw [mainLoopPass_ready b u p m h, ReadJoystick_af, modeGesture_af, usbPoll_af]
    simp

/-- Report bits of one tick in terms of the statics after the tick. -/
theorem tick_report_bit (b : Build) (u : Usb) (p : Pins) (m : Machine) (k : Nat)
    (h : u.interruptIsReady = true) (hk : k < 16) :
    (mainLoopPass b u p m).1.reportBuffer.buttons.testBit k =
      if (mainLoopPass b u p m).1.af.autofireCounter < AUTOFIREMAX b / 2 ∧ p.Stick_Mode = true
      then ((mainLoopPass b u p m).1.af.lastButtons.testBit k
            && (mainLoopPass b u p m).1.af.autofireModulator.testBit k)
      else (mainLoopPass b u p m).1.af.lastButtons.testBit k := by
  rw [mainLoopPass_ready b u p m h, testBit_buttons_ReadJoystick, ReadJoystick_af,
    autofire_gated, autofire_lastButtons]
  split_ifs <;> simp [hk]

theorem pressEvents_testBit (last raw k : Nat) :
    (pressEvents last raw).testBit k
      = (raw.testBit k && !(last.testBit k && pressEventMask.testBit k)) := by
  simp only [pressEvents, Nat.testBit_xor, Nat.testBit_and]
  cases raw.testBit k <;> cases last.testBit k <;> cases pressEventMask.testBit k <;> rfl

/-- The modulator after one tick. -/
theorem autofire_modulator (b : Build) (p : Pins) (raw : Nat) (a : Autofire) :
    (autofire b p raw a).1.autofireModulator =
      if p.Stick_Mode = false then
        (if b.CLEAR_AUTOFIRE = true ∧ p.Stick_Start = false ∧ p.Stick_Select = false
          then 0xffff else a.autofireModulator) ^^^ pressEvents a.lastButtons raw
      else
        (if b.CLEAR_AUTOFIRE = true ∧ p.Stick_Start = false ∧ p.Stick_Select = false
          then 0xffff else a.autofireModulator) := by
  cases hm : p.Stick_Mode <;>
    simp [autofire, DEFAULT_ACTION_BUTTON, hm]

/-- One tick keeps the Select, Start and Home bits of the modulator set when
none of the three is pressed while the modifier is held. -/
theorem systemBitsPass_autofire (b : Build) (p : Pins) (config : Nat) (a : Autofire)
    (ha : systemBitsPass a)
    (hp : p.Stick_Mode = false →
      p.Stick_Select = true ∧ p.Stick_Start = true ∧ p.Stick_Home = true) :
    systemBitsPass (autofire b p (sampleButtons b config p) a).1 := by
  obtain ⟨h8, h9, h12⟩ := ha
  unfold systemBitsPass
  rw [autofire_modulator]
  cases hm : p.Stick_Mode
  · obtain ⟨hsel, hst, hho⟩ := hp hm
    have r8 : (sampleButtons b config p).testBit 8 = false := by
      simp [testBit_sampleButtons, hsel]
    have r9 : (sampleButtons b config p).testBit 9 = false := by
      simp [testBit_sampleButtons, hst]
    have r12 : (sampleButtons b config p).testBit 12 = false := by
      simp [testBit_sampleButtons, homeCombo, hst, hho]
    simp only [if_true, Nat.testBit_xor, pressEvents_testBit, r8, r9, r12]
    split_ifs <;> simp [h8, h9, h12, testBit_0xffff]
  · simp only [Bool.true_eq_false, if_false]
    split_ifs <;> simp [h8, h9, h12, testBit_0xffff]

/-- With the three modulator bits set before a tick, the tick reports Select,
Start and Home as sampled. -/
theorem systemBitsPass_gated (b : Build) (p : Pins) (raw : Nat) (a : Autofire)
    (ha : systemBitsPass a) (k : Nat) (hk : k = 8 ∨ k = 9 ∨ k = 12) :
    (autofire b p raw a).2.testBit k = raw.testBit k := by
  obtain ⟨h8, h9, h12⟩ := ha
  rw [autofire_gated, autofire_modulator]
  cases hm : p.Stick_Mode
  · simp
  · simp only [Bool.true_eq_false, if_false, and_true]
    rcases hk with h | h | h <;> subst h <;> split_ifs <;>
      simp [h8, h9, h12, testBit_0xffff]

theorem systemBitsPass_boot : systemBitsPass Autofire.boot := by
  refine ⟨?_, ?_, ?_⟩ <;> decide

theorem systemBitsPass_stateAt (b : Build) (ev : Nat → Usb × Pins) (m : Machine)
    (hm : systemBitsPass m.af) (n : Nat)
    (hsys : ∀ i < n, (ev i).1.interruptIsReady = true → (ev i).2.Stick_Mode = false →
      (ev i).2.Stick_Select = true ∧ (ev i).2.Stick_Start = true
        ∧ (ev i).2.Stick_Home = true) :
    systemBitsPass (stateAt b ev m n).af := by
  induction n with
  | zero => exact hm
  | succ n ih =>
    have ih1 := ih (fun i hi => hsys i (Nat.lt_succ_of_lt hi))
    rw [stateAt, mainLoopPass_af]
    split_ifs with hr
    · exact systemBitsPass_autofire b _ _ _ ih1 (hsys n (Nat.lt_succ_self n) hr)
    · exact ih1

/-- Runs on which gating leaves Select, Start and Home alone: from the boot
autofire state, as long as the three are released on every earlier tick on which
the toggle modifier was held, their report bits (8, 9, 12) equal the raw sampled
bits on the current tick. -/
theorem system_buttons_pass_through (b : Build) (ev : Nat → Usb × Pins) (m : Machine)
    (n : Nat) (hboot : m.af = Autofire.boot)
    (hsys : ∀ i < n, (ev i).1.interruptIsReady = true → (ev i).2.Stick_Mode = false →
      (ev i).2.Stick_Select = true ∧ (ev i).2.Stick_Start = true
        ∧ (ev i).2.Stick_Home = true)
    (hready : (ev n).1.interruptIsReady = true) :
    ((stateAt b ev m (n + 1)).reportBuffer.buttons.testBit 8
        = (stateAt b ev m (n + 1)).af.lastButtons.testBit 8
      ∧ (stateAt b ev m (n + 1)).reportBuffer.buttons.testBit 9
        = (stateAt b ev m (n + 1)).af.lastButtons.testBit 9
      ∧ (stateAt b ev m (n + 1)).reportBuffer.buttons.testBit 12
        = (stateAt b ev m (n + 1)).af.lastButtons.testBit 12)
    ∧ (stateAt b ev m (n + 1)).af.lastButtons
        = sampleButtons b (stateAt b ev m (n + 1)).config (ev n).2
    ∧ (pressEventMask.testBit 8 = false ∧ pressEventMask.testBit 9 = false
      ∧ pressEventMask.testBit 11 = true) := by
  have hinv : systemBitsPass (stateAt b ev m n).af :=
    systemBitsPass_stateAt b ev m (by rw [hboot]; exact systemBitsPass_boot) n hsys
  have hbit : ∀ k, k = 8 ∨ k = 9 ∨ k = 12 →
      (stateAt b ev m (n + 1)).reportBuffer.buttons.testBit k
        = (stateAt b ev m (n + 1)).af.lastButtons.testBit k := by
    intro k hk
    have hk16 : k < 16 := by omega
    rw [stateAt, mainLoopPass_ready b _ _ _ hready, testBit_buttons_ReadJoystick,
      ReadJoystick_af, autofire_lastButtons]
    rw [modeGesture_af, usbPoll_af, systemBitsPass_gated b _ _ _ hinv k hk]
    simp [hk16]
  refine ⟨⟨hbit 8 (by simp), hbit 9 (by simp), hbit 12 (by simp)⟩, ?_, by decide⟩
  rw [stateAt, mainLoopPass_ready b _ _ _ hready]
  rfl

/-- C8 does not hold of the code: autofire does apply to Select, Start and Home.
From the boot autofire state, pressing Select (or Start) together with the toggle
modifier on one tick clears its modulator bit, because `tempButtons` keeps every
pressed bit outside the mask, and holding the button alone on the next tick makes
the report show it released although it is sampled as pressed.  The same happens
to Home, whose bit 12 is selected by the mask `0x18ff`: the mask holds bits 11
and 12, where the sampling code puts R3 and Home, and not bit 10, where it puts
L3. -/
theorem system_buttons_gated :
    (configInit (Machine.powerOn 0xFF)).af = Autofire.boot
    ∧ ((stateAt Build.plain selectUnderModifier (configInit (Machine.powerOn 0xFF))
          1).af.autofireModulator = 0xfeff
      ∧ (stateAt Build.plain selectUnderModifier (configInit (Machine.powerOn 0xFF))
          2).af.lastButtons.testBit 8 = true
      ∧ (stateAt Build.plain selectUnderModifier (configInit (Machine.powerOn 0xFF))
          2).reportBuffer.buttons.testBit 8 = false)
    ∧ ((stateAt Build.plain startUnderModifier (configInit (Machine.powerOn 0xFF))
          1).af.autofireModulator = 0xfdff
      ∧ (stateAt Build.plain startUnderModifier (configInit (Machine.powerOn 0xFF))
          2).af.lastButtons.testBit 9 = true
      ∧ (stateAt Build.plain startUnderModifier (configInit (Machine.powerOn 0xFF))
          2).reportBuffer.buttons.testBit 9 = false)
    ∧ ((stateAt Build.plain homeUnderModifier (configInit (Machine.powerOn 0xFF))
          1).af.autofireModulator = 0xefff
      ∧ (stateAt Build.plain homeUnderModifier (configInit (Machine.powerOn 0xFF))
          2).af.lastButtons.testBit 12 = true
      ∧ (stateAt Build.plain homeUnderModifier (configInit (Machine.powerOn 0xFF))
          2).reportBuffer.buttons.testBit 12 = false)
    ∧ (pressEventMask.testBit 8 = false ∧ pressEventMask.testBit 9 = false
      ∧ pressEventMask.testBit 10 = false ∧ pressEventMask.testBit 11 = true
      ∧ pressEventMask.testBit 12 = true)
    ∧ ((sampleButtons Build.plain 0x04 { Pins.idle with Stick_L3 := false }).testBit 10 = true
      ∧ (sampleButtons Build.plain 0x04 { Pins.idle with Stick_R3 := false }).testBit 11 = true
      ∧ (sampleButtons Build.plain 0x04 { Pins.idle with Stick_Home := false }).testBit 12
          = true) := by
  decide

/-! ## Autofire period -/

theorem AUTOFIREMAX_cases (b : Build) : AUTOFIREMAX b = 12 ∨ AUTOFIREMAX b = 9 := by
  unfold AUTOFIREMAX
  cases b.F_CPU <;> simp

/-- One tick advances a counter below the period by one, modulo the period. -/
theorem autofire_counter (b : Build) (p : Pins) (raw : Nat) (a : Autofire)
    (hc : a.autofireCounter < AUTOFIREMAX b) :
    (autofire b p raw a).1.autofireCounter = (a.autofireCounter + 1) % AUTOFIREMAX b := by
  have h : (autofire b p raw a).1.autofireCounter
      = if (a.autofireCounter + 1) % 256 = AUTOFIREMAX b then 0
        else (a.autofireCounter + 1) % 256 := rfl
  rw [h]
  rcases AUTOFIREMAX_cases b with hP | hP <;> rw [hP] at hc ⊢ <;> split_ifs <;> omega

theorem counter_stateAt (b : Build) (ev : Nat → Usb × Pins) (m : Machine)
    (hc : m.af.autofireCounter < AUTOFIREMAX b) (n : Nat)
    (hready : ∀ i < n, (ev i).1.interruptIsReady = true) :
    (stateAt b ev m n).af.autofireCounter = (m.af.autofireCounter + n) % AUTOFIREMAX b := by
  induction n with
  | zero => simp [stateAt, Nat.mod_eq_of_lt hc]
  | succ n ih =>
    have ih1 := ih (fun i hi => hready i (Nat.lt_succ_of_lt hi))
    have hpos : 0 < AUTOFIREMAX b := by omega
    have hlt : (stateAt b ev m n).af.autofireCounter < AUTOFIREMAX b := by
      rw [ih1]
      exact Nat.mod_lt _ hpos
    rw [stateAt, mainLoopPass_af, if_pos (hready n (Nat.lt_succ_self n)),
      autofire_counter b _ _ _ hlt, ih1]
    rcases AUTOFIREMAX_cases b with hP | hP <;> rw [hP] <;> omega

/-- The counter after `n` passes, in terms of the number of ticks among them. -/
theorem counter_tickCount (b : Build) (ev : Nat → Usb × Pins) (m : Machine)
    (hc : m.af.autofireCounter < AUTOFIREMAX b) (n : Nat) :
    (stateAt b ev m n).af.autofireCounter
      = (m.af.autofireCounter + tickCount ev n) % AUTOFIREMAX b := by
  induction n with
  | zero => simp [stateAt, tickCount, Nat.mod_eq_of_lt hc]
  | succ n ih =>
    have hpos : 0 < AUTOFIREMAX b := by omega
    have hlt : (stateAt b ev m n).af.autofireCounter < AUTOFIREMAX b := by
      rw [ih]
      exact Nat.mod_lt _ hpos
    rw [stateAt, mainLoopPass_af, tickCount]
    cases hr : (ev n).1.interruptIsReady
    · simp only [Bool.false_eq_true, if_false, Nat.add_zero]
      exact ih
    · simp only [if_true]
      rw [autofire_counter b _ _ _ hlt, ih]
      rcases AUTOFIREMAX_cases b with hP | hP <;> rw [hP] <;> omega

theorem eligible_lt (k : Nat) (hk : pressEventMask.testBit k = true) : k < 13 := by
  by_contra h
  have h13 : pressEventMask < 2 ^ 13 := by decide
  have hle : 2 ^ 13 ≤ 2 ^ k := Nat.pow_le_pow_right (by norm_num) (by omega)
  rw [Nat.testBit_lt_two_pow (lt_of_lt_of_le h13 hle)] at hk
  exact Bool.noConfusion hk

/-- The report bit of a held button on a tick without the modifier. -/
theorem held_report_bit (b : Build) (ev : Nat → Usb × Pins) (m : Machine) (k i : Nat)
    (hk : k < 16) (hready : (ev i).1.interruptIsReady = true)
    (hmode : (ev i).2.Stick_Mode = true)
    (hheld : (stateAt b ev m (i + 1)).af.lastButtons.testBit k = true) :
    (stateAt b ev m (i + 1)).reportBuffer.buttons.testBit k =
      if (stateAt b ev m (i + 1)).af.autofireCounter < AUTOFIREMAX b / 2
      then (stateAt b ev m (i + 1)).af.autofireModulator.testBit k else true := by
  have h := tick_report_bit b (ev i).1 (ev i).2 (stateAt b ev m i) k hready hk
  rw [← stateAt] at h
  rw [h, hheld]
  simp [hmode]

/-- Without the modifier and without the Start+Select reset of CLEAR_AUTOFIRE
builds on any tick, the modulator keeps its value. -/
theorem modulator_stateAt (b : Build) (ev : Nat → Usb × Pins) (m : Machine) (n : Nat)
    (hmode : ∀ i < n, (ev i).1.interruptIsReady = true → (ev i).2.Stick_Mode = true)
    (hclr : ∀ i < n, (ev i).1.interruptIsReady = true →
      ¬ (b.CLEAR_AUTOFIRE = true ∧ (ev i).2.Stick_Start = false
        ∧ (ev i).2.Stick_Select = false)) :
    (stateAt b ev m n).af.autofireModulator = m.af.autofireModulator := by
  induction n with
  | zero => rfl
  | succ n ih =>
    have ih1 := ih (fun i hi => hmode i (Nat.lt_succ_of_lt hi))
      (fun i hi => hclr i (Nat.lt_succ_of_lt hi))
    rw [stateAt, mainLoopPass_af]
    split_ifs with hr
    · rw [autofire_modulator, hmode n (Nat.lt_succ_self n) hr]
      simp only [Bool.true_eq_false, if_false, if_neg (hclr n (Nat.lt_succ_self n) hr)]
      exact ih1
    · exact ih1

/-- Number of ticks of a window on which the counter is in the first half. -/
theorem count_first_half (P c : Nat) (hP : P = 12 ∨ P = 9) (hc : c < P) :
    ((List.range P).filter (fun i => decide ((c + (i + 1)) % P < P / 2))).length = P / 2 := by
  rcases hP with h | h <;> subst h <;> interval_cases c <;> rfl

theorem tickCount_mono (ev : Nat → Usb × Pins) (i j : Nat) (h : i ≤ j) :
    tickCount ev i ≤ tickCount ev j := by
  induction j with
  | zero =>
    have h0 : i = 0 := by omega
    rw [h0]
  | succ j ih =>
    by_cases hij : i = j + 1
    · rw [hij]
    · have := ih (by omega)
      rw [tickCount]
      omega

theorem tickCount_succ_of_ready (ev : Nat → Usb × Pins) (i : Nat)
    (h : (ev i).1.interruptIsReady = true) : tickCount ev (i + 1) = tickCount ev i + 1 := by
  rw [tickCount, h]
  rfl

/-- Counting passes that are ticks with a property of the tick index is counting
tick indices with that property. -/
theorem filter_ticks_length (ev : Nat → Usb × Pins) (q : Nat → Bool) (N : Nat) :
    ((List.range N).filter
        (fun i => (ev i).1.interruptIsReady && q (tickCount ev i))).length
      = ((List.range (tickCount ev N)).filter q).length := by
  induction N with
  | zero => rfl
  | succ N ih =>
    rw [List.range_succ, List.filter_append, List.length_append, ih, tickCount]
    cases hr : (ev N).1.interruptIsReady
    · simp [List.filter_cons, hr]
    · cases hq : q (tickCount ev N) <;>
        simp [List.range_succ, List.filter_append, List.filter_cons, hr, hq]

/-- C9: take a stretch of loop passes that contains a window of P consecutive
ticks (P = AUTOFIREMAX: 12 for the 16 MHz build at 60 ticks/s, 9 for the 12 MHz
build at 45 ticks/s), with any number of idle passes between the ticks, that
starts with the counter below P, during which the toggle modifier is not held on
any tick and the raw bit of an eligible button is set on every tick.  If that
button's modulator bit is 0 on the ticks of the window, the report shows the
button released exactly on the ticks where the counter is below P/2, these are
the P/2 cyclically consecutive ticks that start at tick P-1-c (c the counter
before the window, ticks numbered from 0), and pressed on all other ticks; if
the modulator bit is 1 on the ticks of the window, the report shows it pressed on
every tick.  The modulator keeps the value it has before the window throughout,
unless the build has CLEAR_AUTOFIRE and Start and Select are pressed together on
a tick; so without that reset "enabled" and "disabled" are the value of the bit
before the window.  P/2 is the integer quotient (6 and 4). -/
theorem autofire_window (b : Build) (ev : Nat → Usb × Pins) (m : Machine) (k N : Nat)
    (hk : pressEventMask.testBit k = true)
    (hc : m.af.autofireCounter < AUTOFIREMAX b)
    (hN : tickCount ev N = AUTOFIREMAX b)
    (hmode : ∀ i < N, (ev i).1.interruptIsReady = true → (ev i).2.Stick_Mode = true)
    (hheld : ∀ i < N, (ev i).1.interruptIsReady = true →
      (stateAt b ev m (i + 1)).af.lastButtons.testBit k = true) :
    ((b.F_CPU = .mhz16 → AUTOFIREMAX b = 12) ∧ (b.F_CPU = .mhz12 → AUTOFIREMAX b = 9))
    ∧ ((∀ i < N, (ev i).1.interruptIsReady = true →
          (stateAt b ev m (i + 1)).af.autofireModulator.testBit k = false) →
        (∀ i < N, (ev i).1.interruptIsReady = true →
          ((stateAt b ev m (i + 1)).reportBuffer.buttons.testBit k = false
            ↔ (stateAt b ev m (i + 1)).af.autofireCounter < AUTOFIREMAX b / 2))
        ∧ (∀ i < N, (ev i).1.interruptIsReady = true →
          ((stateAt b ev m (i + 1)).reportBuffer.buttons.testBit k = false
            ↔ ∃ j < AUTOFIREMAX b / 2,
                tickCount ev i
                  = (AUTOFIREMAX b - 1 - m.af.autofireCounter + j) % AUTOFIREMAX b))
        ∧ ((List.range N).filter
            (fun i => (ev i).1.interruptIsReady
              && !(stateAt b ev m (i + 1)).reportBuffer.buttons.testBit k)).length
            = AUTOFIREMAX b / 2)
    ∧ ((∀ i < N, (ev i).1.interruptIsReady = true →
          (stateAt b ev m (i + 1)).af.autofireModulator.testBit k = true) →
        ∀ i < N, (ev i).1.interruptIsReady = true →
          (stateAt b ev m (i + 1)).reportBuffer.buttons.testBit k = true)
    ∧ ((∀ i < N, (ev i).1.interruptIsReady = true →
          ¬ (b.CLEAR_AUTOFIRE = true ∧ (ev i).2.Stick_Start = false
            ∧ (ev i).2.Stick_Select = false)) →
        ∀ i ≤ N, (stateAt b ev m i).af.autofireModulator = m.af.autofireModulator) := by
  have hk16 : k < 16 := Nat.lt_of_lt_of_le (eligible_lt k hk) (by norm_num)
  have htick : ∀ i < N, (ev i).1.interruptIsReady = true →
      tickCount ev i < AUTOFIREMAX b := by
    intro i hi hr
    have h1 := tickCount_succ_of_ready ev i hr
    have h2 := tickCount_mono ev (i + 1) N (by omega)
    omega
  have hcnt : ∀ i < N, (ev i).1.interruptIsReady = true →
      (stateAt b ev m (i + 1)).af.autofireCounter
        = (m.af.autofireCounter + (tickCount ev i + 1)) % AUTOFIREMAX b := by
    intro i hi hr
    rw [counter_tickCount b ev m hc (i + 1), tickCount_succ_of_ready ev i hr]
  have hbit : ∀ i < N, (ev i).1.interruptIsReady = true →
      (stateAt b ev m (i + 1)).reportBuffer.buttons.testBit k =
        if (stateAt b ev m (i + 1)).af.autofireCounter < AUTOFIREMAX b / 2
        then (stateAt b ev m (i + 1)).af.autofireModulator.testBit k else true :=
    fun i hi hr => held_report_bit b ev m k i hk16 hr (hmode i hi hr) (hheld i hi hr)
  refine ⟨⟨?_, ?_⟩, ?_, ?_, ?_⟩
  · intro h
    simp [AUTOFIREMAX, h]
  · intro h
    simp [AUTOFIREMAX, h]
  · intro hen
    have hrel : ∀ i < N, (ev i).1.interruptIsReady = true →
        ((stateAt b ev m (i + 1)).reportBuffer.buttons.testBit k = false
          ↔ (stateAt b ev m (i + 1)).af.autofireCounter < AUTOFIREMAX b / 2) := by
      intro i hi hr
      rw [hbit i hi hr, hen i hi hr]
      split_ifs with h <;> simp [h]
    refine ⟨hrel, ?_, ?_⟩
    · intro i hi hr
      have ht := htick i hi hr
      rw [hrel i hi hr, hcnt i hi hr]
      rcases AUTOFIREMAX_cases b with hP | hP <;> rw [hP] at hc ht ⊢
      · constructor
        · intro h
          exact ⟨(m.af.autofireCounter + (tickCount ev i + 1)) % 12, h, by omega⟩
        · rintro ⟨j, hj, hji⟩
          omega
      · constructor
        · intro h
          exact ⟨(m.af.autofireCounter + (tickCount ev i + 1)) % 9, h, by omega⟩
        · rintro ⟨j, hj, hji⟩
          omega
    · rw [← count_first_half (AUTOFIREMAX b) m.af.autofireCounter (AUTOFIREMAX_cases b) hc,
        ← hN, ← filter_ticks_length ev
          (fun j => decide ((m.af.autofireCounter + (j + 1)) % tickCount ev N
            < tickCount ev N / 2)) N]
      congr 1
      apply List.filter_congr
      intro i hi
      have hi2 : i < N := List.mem_range.mp hi
      cases hr : (ev i).1.interruptIsReady
      · rfl
      · have h := hrel i hi2 hr
        rw [hcnt i hi2 hr, ← hN] at h
        simp only [Bool.true_and]
        cases hb : (stateAt b ev m (i + 1)).reportBuffer.buttons.testBit k
        · simpa using h.mp hb
        · by_contra hne
          have h3 : (m.af.autofireCounter + (tickCount ev i + 1)) % tickCount ev N
              < tickCount ev N / 2 := by
            simpa using hne
          rw [h.mpr h3] at hb
          exact Bool.noConfusion hb
  · intro hdis i hi hr
    rw [hbit i hi hr, hdis i hi hr]
    simp
  · intro hclr i hi
    exact modulator_stateAt b ev m i (fun j hj => hmode j (by omega))
      (fun j hj => hclr j (by omega))

/-- Witness of C9: Square with autofire enabled, held for one period of the
16 MHz build, with an idle pass after every tick. -/
theorem autofire_window_witness :
    (pressEventMask.testBit 0 = true
      ∧ Machine.squareAutofire.af.autofireCounter < AUTOFIREMAX Build.plain
      ∧ tickCount squareHeldSparse 24 = AUTOFIREMAX Build.plain
      ∧ (squareHeldSparse 1).1.interruptIsReady = false
      ∧ ∀ i < 24, (squareHeldSparse i).1.interruptIsReady = true →
          (stateAt Build.plain squareHeldSparse Machine.squareAutofire
            (i + 1)).af.autofireModulator.testBit 0 = false)
    ∧ ((List.range 24).filter
        (fun i => (squareHeldSparse i).1.interruptIsReady
          && !(stateAt Build.plain squareHeldSparse Machine.squareAutofire
            (i + 1)).reportBuffer.buttons.testBit 0)).length
        = AUTOFIREMAX Build.plain / 2 :=
  ⟨⟨by decide, by decide, by decide, by decide, by decide⟩,
   ((autofire_window Build.plain squareHeldSparse Machine.squareAutofire 0 24 (by decide)
      (by decide) (by decide) (fun _ _ _ => rfl) (by decide)).2.1 (by decide)).2.2⟩

/-! ## Order of commit and report within one pass -/

theorem modeGesture_config_congr (p : Pins) (m n : Machine) (h : m.config = n.config) :
    (modeGesture p m).config = (modeGesture p n).config := by
  unfold modeGesture
  split_ifs <;>
    simp [enterDigitalPadMode, enterLeftStickMode, enterRightStickMode,
      enterLeftStickDigitalPadMode, h]

theorem ReadJoystick_reportBuffer_congr (b : Build) (p : Pins) (m n : Machine)
    (hc : m.config = n.config) (ha : m.af = n.af) :
    (ReadJoystick b p m).reportBuffer = (ReadJoystick b p n).reportBuffer := by
  rw [ReadJoystick_reportBuffer, ReadJoystick_reportBuffer, directions_eq, directions_eq,
    hc, ha]

/-- C10 (amended): in every pass of the main loop in which a report is built, the
mode gesture runs before ReadJoystick, so the report sent in that pass is the one
determined by the configuration after that pass's gesture (the committed value
when a commit happens), together with the pins and the autofire state;
ReadJoystick never changes the configuration, so a commit never takes effect
mid-build, and the committed value is the configuration with which the following
pass starts. -/
theorem commit_precedes_build (b : Build) (u : Usb) (p : Pins) (m : Machine)
    (hready : u.interruptIsReady = true) :
    (mainLoopPass b u p m).2
        = some (ReadJoystick b p { m with config := (modeGesture p m).config }).reportBuffer.wire
    ∧ (mainLoopPass b u p m).1.config = (modeGesture p m).config
    ∧ (ReadJoystick b p m).config = m.config := by
  have hcfg : (modeGesture p (usbPoll u m)).config = (modeGesture p m).config :=
    modeGesture_config_congr p _ _ (usbPoll_config u m)
  refine ⟨?_, ?_, rfl⟩
  · have h : (mainLoopPass b u p m).2
        = some (ReadJoystick b p (modeGesture p (usbPoll u m))).reportBuffer.wire := by
      simp [mainLoopPass, hready]
    rw [h, ReadJoystick_reportBuffer_congr b p (modeGesture p (usbPoll u m))
      { m with config := (modeGesture p m).config } hcfg
      (by rw [modeGesture_af, usbPoll_af])]
  · rw [mainLoopPass_ready b u p m hready]
    exact hcfg

/-- Witness of C10 (amended): the default configuration, mode+left held on a tick. -/
theorem commit_precedes_build_witness :
    Usb.tick.interruptIsReady = true
    ∧ (mainLoopPass Build.plain Usb.tick Pins.modeLeft (configInit (Machine.powerOn 0xFF))).2
        = some (ReadJoystick Build.plain Pins.modeLeft
            { configInit (Machine.powerOn 0xFF) with
              config := (modeGesture Pins.modeLeft
                (configInit (Machine.powerOn 0xFF))).config }).reportBuffer.wire :=
  ⟨rfl, (commit_precedes_build Build.plain Usb.tick Pins.modeLeft
      (configInit (Machine.powerOn 0xFF)) rfl).1⟩

/-- The claim C10 fails as stated: starting a pass with the pad-only
configuration `0x04` and mode+left held, the gesture commits `0x02` and the
report sent in that same pass already shows the left stick deflected and the hat
neutral, while the configuration held at the start of the pass determines a
report with the hat at West and the stick centred. -/
theorem commit_same_pass_counterexample :
    (configInit (Machine.powerOn 0xFF)).config = 0x04
    ∧ (modeGesture Pins.modeLeft (configInit (Machine.powerOn 0xFF))).config = 0x02
    ∧ (mainLoopPass Build.plain Usb.tick Pins.modeLeft (configInit (Machine.powerOn 0xFF))).2
        = some [0, 0, 0x08, 0x00, 0x80, 0x80, 0x80]
    ∧ (ReadJoystick Build.plain Pins.modeLeft
        (configInit (Machine.powerOn 0xFF))).reportBuffer.wire
        = [0, 0, 0x06, 0x80, 0x80, 0x80, 0x80] := by
  decide

/-! ## Toggling the modulator -/

theorem autofire_modulator_clear (b : Build) (p : Pins) (raw : Nat) (a : Autofire) :
    (autofire b p raw a).1.autofireModulator =
      if p.Stick_Mode = false then
        clearAutofire b p a.autofireModulator ^^^ pressEvents a.lastButtons raw
      else clearAutofire b p a.autofireModulator := by
  cases hm : p.Stick_Mode <;>
    simp [autofire, clearAutofire, DEFAULT_ACTION_BUTTON, hm]

/-- Every bit of the modulator after one tick. -/
theorem autofire_modulator_testBit (b : Build) (p : Pins) (raw : Nat) (a : Autofire)
    (k : Nat) :
    (autofire b p raw a).1.autofireModulator.testBit k =
      ((clearAutofire b p a.autofireModulator).testBit k
        != (!p.Stick_Mode && (raw.testBit k
              && !(a.lastButtons.testBit k && pressEventMask.testBit k)))) := by
  rw [autofire_modulator_clear]
  cases hm : p.Stick_Mode <;> simp [Nat.testBit_xor, pressEvents_testBit]

theorem clearAutofire_of_not (b : Build) (p : Pins) (x : Nat)
    (h : ¬ (b.CLEAR_AUTOFIRE = true ∧ p.Stick_Start = false ∧ p.Stick_Select = false)) :
    clearAutofire b p x = x := by
  unfold clearAutofire
  cases hb : b.CLEAR_AUTOFIRE <;> cases hs : p.Stick_Start <;> cases ht : p.Stick_Select <;>
    simp_all

/-- C11 (amended): on every tick and for every autofire-eligible bit k, the
modulator bit k after the tick differs from bit k of the base value exactly when
the toggle modifier is held and button k went from released on the previous raw
vector to pressed on this one; without the modifier the modulator after the tick
is the base value.  The base value is the modulator before the tick, except that
in a CLEAR_AUTOFIRE build with Start and Select both pressed it is `0xffff`.
When no reset fires, a press of button k under the modifier, a tick with the
button released and a second press under the modifier restore the original
bit k. -/
theorem modulator_toggle (b : Build) (p : Pins) (m : Machine) (k : Nat)
    (hk : pressEventMask.testBit k = true) :
    ((ReadJoystick b p m).af.autofireModulator.testBit k
        ≠ (clearAutofire b p m.af.autofireModulator).testBit k
      ↔ (p.Stick_Mode = false ∧ m.af.lastButtons.testBit k = false
          ∧ (sampleButtons b m.config p).testBit k = true))
    ∧ (p.Stick_Mode = true →
        (ReadJoystick b p m).af.autofireModulator
          = clearAutofire b p m.af.autofireModulator)
    ∧ (¬ (b.CLEAR_AUTOFIRE = true ∧ p.Stick_Start = false ∧ p.Stick_Select = false) →
        clearAutofire b p m.af.autofireModulator = m.af.autofireModulator)
    ∧ (∀ q r : Pins,
        ¬ (b.CLEAR_AUTOFIRE = true ∧ p.Stick_Start = false ∧ p.Stick_Select = false) →
        ¬ (b.CLEAR_AUTOFIRE = true ∧ q.Stick_Start = false ∧ q.Stick_Select = false) →
        ¬ (b.CLEAR_AUTOFIRE = true ∧ r.Stick_Start = false ∧ r.Stick_Select = false) →
        p.Stick_Mode = false → r.Stick_Mode = false →
        m.af.lastButtons.testBit k = false →
        (sampleButtons b m.config p).testBit k = true →
        (sampleButtons b m.config q).testBit k = false →
        (sampleButtons b m.config r).testBit k = true →
        (ReadJoystick b r (ReadJoystick b q (ReadJoystick b p m))).af.autofireModulator.testBit k
          = m.af.autofireModulator.testBit k) := by
  refine ⟨?_, ?_, clearAutofire_of_not b p _, ?_⟩
  · rw [ReadJoystick_af, autofire_modulator_testBit, hk]
    cases (clearAutofire b p m.af.autofireModulator).testBit k <;>
      cases p.Stick_Mode <;> cases m.af.lastButtons.testBit k <;>
      cases (sampleButtons b m.config p).testBit k <;> simp
  · intro hm
    rw [ReadJoystick_af, autofire_modulator_clear]
    simp [hm]
  · intro q r hp hq hr hpm hrm hlast hraw1 hraw2 hraw3
    have c1 : (ReadJoystick b p m).config = m.config := rfl
    have c2 : (ReadJoystick b q (ReadJoystick b p m)).config = m.config := rfl
    have l1 : (ReadJoystick b p m).af.lastButtons = sampleButtons b m.config p := rfl
    have l2 : (ReadJoystick b q (ReadJoystick b p m)).af.lastButtons
        = sampleButtons b m.config q := rfl
    rw [ReadJoystick_af, autofire_modulator_testBit, clearAutofire_of_not b r _ hr, c2, l2,
      hraw2, hraw3, hrm]
    rw [ReadJoystick_af, autofire_modulator_testBit, clearAutofire_of_not b q _ hq, c1, l1,
      hraw1, hraw2]
    rw [ReadJoystick_af, autofire_modulator_testBit, clearAutofire_of_not b p _ hp, hlast,
      hraw1, hpm]
    cases m.af.autofireModulator.testBit k <;> simp

/-- Witness of C11 (amended): from first power-on, Square pressed together with
the modifier flips the modulator bit of button 1. -/
theorem modulator_toggle_witness :
    pressEventMask.testBit 0 = true
    ∧ (ReadJoystick Build.plain Pins.modeSquare
          (configInit (Machine.powerOn 0xFF))).af.autofireModulator.testBit 0
        ≠ (clearAutofire Build.plain Pins.modeSquare
          (configInit (Machine.powerOn 0xFF)).af.autofireModulator).testBit 0 :=
  ⟨by decide,
   (modulator_toggle Build.plain Pins.modeSquare (configInit (Machine.powerOn 0xFF)) 0
      (by decide)).1.mpr ⟨rfl, by decide, by decide⟩⟩

/-- The claim C11 fails as stated: in a CLEAR_AUTOFIRE build, after autofire was
enabled for Square (modulator `0xfffe`), a tick with Start and Select pressed
and the toggle modifier released changes the modulator to `0xffff`, so the bit
of the eligible button 1 changes without the modifier and without a press of
that button. -/
theorem modulator_reset_counterexample :
    pressEventMask.testBit 0 = true
    ∧ (squareThenReset 1).2.Stick_Mode = true
    ∧ (stateAt Build.withClear squareThenReset (configInit (Machine.powerOn 0xFF))
        1).af.autofireModulator = 0xfffe
    ∧ (sampleButtons Build.withClear
        (stateAt Build.withClear squareThenReset (configInit (Machine.powerOn 0xFF)) 1).config
        (squareThenReset 1).2).testBit 0 = false
    ∧ (stateAt Build.withClear squareThenReset (configInit (Machine.powerOn 0xFF))
        2).af.autofireModulator = 0xffff := by
  decide

/-! ## Gating -/

theorem sampleButtons_testBit_high (b : Build) (config : Nat) (p : Pins) (i : Nat)
    (hi : 13 ≤ i) : (sampleButtons b config p).testBit i = false := by
  have h0 : ∀ k, k < 13 → decide (k = i) = false := by
    intro k hk
    simp only [decide_eq_false_iff_not]
    omega
  simp [testBit_sampleButtons, h0]

theorem sampleButtons_lt (b : Build) (config : Nat) (p : Pins) :
    sampleButtons b config p < 2 ^ 13 :=
  Nat.lt_pow_two_of_testBit _ (fun i hi => sampleButtons_testBit_high b config p i hi)

theorem gated_testBit_high (b : Build) (config : Nat) (p : Pins) (a : Autofire) (i : Nat)
    (hi : 13 ≤ i) : (autofire b p (sampleButtons b config p) a).2.testBit i = false := by
  rw [autofire_gated]
  split_ifs <;> simp [sampleButtons_testBit_high b config p i hi]

theorem gated_lt (b : Build) (config : Nat) (p : Pins) (a : Autofire) :
    (autofire b p (sampleButtons b config p) a).2 < 2 ^ 13 :=
  Nat.lt_pow_two_of_testBit _ (fun i hi => gated_testBit_high b config p a i hi)

/-- The two button bytes carry the gated vector without loss. -/
theorem buttons_ReadJoystick (b : Build) (p : Pins) (m : Machine) :
    (ReadJoystick b p m).reportBuffer.buttons
      = (autofire b p (sampleButtons b m.config p) m.af).2 := by
  apply Nat.eq_of_testBit_eq
  intro i
  rw [testBit_buttons_ReadJoystick]
  by_cases h : i < 16
  · simp [h]
  · rw [gated_testBit_high b m.config p m.af i (by omega)]
    simp

theorem and_0xffff_of_lt (x : Nat) (h : x < 2 ^ 13) : x &&& 0xffff = x := by
  have h16 : x < 2 ^ 16 := Nat.lt_of_lt_of_le h (by norm_num)
  exact Nat.and_pow_two_sub_one_of_lt_two_pow h16

/-- C12: on every tick the button vector placed in the report equals the raw
vector ANDed with the modulation mask when the toggle modifier is not held and
the counter, after the increment and wrap of this tick, is below P/2; in every
other case, in particular whenever the modifier is held, it equals the raw
vector.  The mask is the one in force after the update step of the tick, which
without the modifier is the mask before the tick (or `0xffff` after the
Start+Select reset of a CLEAR_AUTOFIRE build); the report bytes are the low and
the high byte of the vector. -/
theorem report_button_vector (b : Build) (p : Pins) (m : Machine) :
    (ReadJoystick b p m).af.autofireCounter
        = (if (m.af.autofireCounter + 1) % 256 = AUTOFIREMAX b then 0
           else (m.af.autofireCounter + 1) % 256)
    ∧ (p.Stick_Mode = true
        ∧ (ReadJoystick b p m).af.autofireCounter < AUTOFIREMAX b / 2 →
        (ReadJoystick b p m).reportBuffer.buttons
          = sampleButtons b m.config p &&& (ReadJoystick b p m).af.autofireModulator)
    ∧ (¬ (p.Stick_Mode = true
        ∧ (ReadJoystick b p m).af.autofireCounter < AUTOFIREMAX b / 2) →
        (ReadJoystick b p m).reportBuffer.buttons = sampleButtons b m.config p)
    ∧ (p.Stick_Mode = false →
        (ReadJoystick b p m).reportBuffer.buttons = sampleButtons b m.config p)
    ∧ (p.Stick_Mode = true →
        (ReadJoystick b p m).af.autofireModulator
          = clearAutofire b p m.af.autofireModulator)
    ∧ (ReadJoystick b p m).reportBuffer.buttons1
        = (ReadJoystick b p m).reportBuffer.buttons &&& 0xff
    ∧ (ReadJoystick b p m).reportBuffer.buttons2
        = ((ReadJoystick b p m).reportBuffer.buttons >>> 8) &&& 0xff := by
  refine ⟨rfl, ?_, ?_, ?_, ?_, ?_, ?_⟩
  · intro h
    rw [buttons_ReadJoystick, autofire_gated, ReadJoystick_af, if_pos ⟨h.2, h.1⟩]
  · intro h
    rw [buttons_ReadJoystick, autofire_gated, if_neg (fun hc => h ⟨hc.2, hc.1⟩)]
  · intro h
    rw [buttons_ReadJoystick, autofire_gated, if_neg (fun hc => by simp [h] at hc)]
  · intro h
    rw [ReadJoystick_af, autofire_modulator_clear]
    simp [h]
  · rw [buttons_ReadJoystick]
    rfl
  · rw [buttons_ReadJoystick]
    rfl

/-- Witness of C12: Square held with autofire enabled, second tick of the period. -/
theorem report_button_vector_witness :
    ((squareHeld 0).2.Stick_Mode = true
      ∧ (ReadJoystick Build.plain (squareHeld 0).2 Machine.squareAutofire).af.autofireCounter
          < AUTOFIREMAX Build.plain / 2)
    ∧ (ReadJoystick Build.plain (squareHeld 0).2 Machine.squareAutofire).reportBuffer.buttons
        = sampleButtons Build.plain Machine.squareAutofire.config (squareHeld 0).2
          &&& (ReadJoystick Build.plain (squareHeld 0).2
                Machine.squareAutofire).af.autofireModulator :=
  ⟨⟨rfl, by decide⟩,
   (report_button_vector Build.plain (squareHeld 0).2 Machine.squareAutofire).2.1
      ⟨rfl, by decide⟩⟩

theorem clearAutofire_0xffff (b : Build) (p : Pins) : clearAutofire b p 0xffff = 0xffff := by
  unfold clearAutofire
  split_ifs <;> rfl

/-- The modulator stays `0xffff` while no tick runs with the modifier held. -/
theorem modulator_default_stateAt (b : Build) (ev : Nat → Usb × Pins) (m : Machine)
    (hmask : m.af.autofireModulator = 0xffff) (n : Nat)
    (hmode : ∀ i < n, (ev i).1.interruptIsReady = true → (ev i).2.Stick_Mode = true) :
    (stateAt b ev m n).af.autofireModulator = 0xffff := by
  induction n with
  | zero => exact hmask
  | succ n ih =>
    have ih1 := ih (fun i hi => hmode i (Nat.lt_succ_of_lt hi))
    rw [stateAt, mainLoopPass_af]
    split_ifs with hr
    · rw [autofire_modulator_clear, hmode n (Nat.lt_succ_self n) hr, ih1]
      simp [clearAutofire_0xffff]
    · exact ih1

/-- C13: the modulation mask defaults to "always pass".  The boot value of the
mask is `0xffff`; from any state whose mask is `0xffff` (whatever its counter),
as long as the toggle modifier is not held on any tick, the mask is still
`0xffff` after every pass of the loop, and on every tick the button vector in
the report equals the raw vector sampled on that tick. -/
theorem default_mask_passes (b : Build) (ev : Nat → Usb × Pins) (m : Machine) (n : Nat)
    (hmask : m.af.autofireModulator = 0xffff)
    (hmode : ∀ i ≤ n, (ev i).1.interruptIsReady = true → (ev i).2.Stick_Mode = true) :
    Autofire.boot.autofireModulator = 0xffff
    ∧ (stateAt b ev m (n + 1)).af.autofireModulator = 0xffff
    ∧ ((ev n).1.interruptIsReady = true →
        (stateAt b ev m (n + 1)).reportBuffer.buttons
            = sampleButtons b (stateAt b ev m (n + 1)).config (ev n).2
        ∧ (stateAt b ev m (n + 1)).af.lastButtons
            = sampleButtons b (stateAt b ev m (n + 1)).config (ev n).2) := by
  have hinv : (stateAt b ev m (n + 1)).af.autofireModulator = 0xffff :=
    modulator_default_stateAt b ev m hmask (n + 1) (fun i hi => hmode i (by omega))
  refine ⟨rfl, hinv, ?_⟩
  intro hready
  have hst : stateAt b ev m (n + 1)
      = ReadJoystick b (ev n).2 (modeGesture (ev n).2 (usbPoll (ev n).1 (stateAt b ev m n))) := by
    rw [stateAt, mainLoopPass_ready b _ _ _ hready]
  have hcfg : (stateAt b ev m (n + 1)).config
      = (modeGesture (ev n).2 (usbPoll (ev n).1 (stateAt b ev m n))).config := by
    rw [hst]
    rfl
  have hmod := hinv
  rw [hst, ReadJoystick_af] at hmod
  refine ⟨?_, ?_⟩
  · rw [hcfg, hst, buttons_ReadJoystick, autofire_gated, hmod]
    split_ifs
    · exact and_0xffff_of_lt _ (sampleButtons_lt b _ _)
    · rfl
  · rw [hcfg, hst]
    rfl

/-- Witness of C13: Square held without the modifier from first power-on, fourth
tick. -/
theorem default_mask_passes_witness :
    (configInit (Machine.powerOn 0xFF)).af.autofireModulator = 0xffff
    ∧ (stateAt Build.plain squareHeld (configInit (Machine.powerOn 0xFF))
        4).af.autofireModulator = 0xffff
    ∧ (stateAt Build.plain squareHeld (configInit (Machine.powerOn 0xFF))
        4).reportBuffer.buttons
        = sampleButtons Build.plain
            (stateAt Build.plain squareHeld (configInit (Machine.powerOn 0xFF)) 4).config
            (squareHeld 3).2 :=
  ⟨rfl,
   (default_mask_passes Build.plain squareHeld (configInit (Machine.powerOn 0xFF)) 3 rfl
      (fun _ _ _ => rfl)).2.1,
   ((default_mask_passes Build.plain squareHeld (configInit (Machine.powerOn 0xFF)) 3 rfl
      (fun _ _ _ => rfl)).2.2 rfl).1⟩

/-! ## What the report depends on -/

theorem sampleButtons_congr (b : Build) (p : Pins) (c d : Nat)
    (h4 : c.testBit 4 = d.testBit 4) : sampleButtons b c p = sampleButtons b d p := by
  unfold sampleButtons
  rw [CFG_HOME_EMU_eq, CFG_HOME_EMU_eq, h4]

theorem directions_congr (p : Pins) (r s : Report) (c d : Nat)
    (h1 : c.testBit 1 = d.testBit 1) (h2 : c.testBit 2 = d.testBit 2)
    (h3 : c.testBit 3 = d.testBit 3) : directions c p r = directions d p s := by
  rw [directions_eq, directions_eq, h1, h2, h3]

/-- A tick reads the configuration through bits 1-4 only, and reads neither the
previous report buffer nor the EEPROM cell. -/
theorem ReadJoystick_congr (b : Build) (p : Pins) (m n : Machine)
    (h1 : m.config.testBit 1 = n.config.testBit 1)
    (h2 : m.config.testBit 2 = n.config.testBit 2)
    (h3 : m.config.testBit 3 = n.config.testBit 3)
    (h4 : m.config.testBit 4 = n.config.testBit 4) (ha : m.af = n.af) :
    (ReadJoystick b p m).reportBuffer = (ReadJoystick b p n).reportBuffer
    ∧ (ReadJoystick b p m).af = (ReadJoystick b p n).af := by
  rw [ReadJoystick_reportBuffer, ReadJoystick_reportBuffer, ReadJoystick_af, ReadJoystick_af,
    directions_congr p m.reportBuffer n.reportBuffer _ _ h1 h2 h3,
    sampleButtons_congr b p _ _ h4, ha]
  exact ⟨rfl, rfl⟩

theorem testBit_xor_one_shiftLeft (c i j : Nat) (h : i ≠ j) :
    (c ^^^ (1 <<< i)).testBit j = c.testBit j := by
  rw [Nat.testBit_xor, Nat.one_shiftLeft, Nat.testBit_two_pow]
  simp [h]

/-- C14: configuration bits the builder does not define are masked.  Two
configuration values that agree on bits 1-4 make ReadJoystick produce identical
reports and identical next autofire state, from the same snapshot and autofire
state; flipping any of the bits 0, 5, 6, 7 changes neither; and for each of the
256 configuration bytes ReadJoystick yields a report of seven bytes. -/
theorem undefined_config_bits_masked (b : Build) (p : Pins) (m : Machine) (c d : Nat)
    (h1 : c.testBit 1 = d.testBit 1) (h2 : c.testBit 2 = d.testBit 2)
    (h3 : c.testBit 3 = d.testBit 3) (h4 : c.testBit 4 = d.testBit 4) :
    ((ReadJoystick b p { m with config := c }).reportBuffer
        = (ReadJoystick b p { m with config := d }).reportBuffer
      ∧ (ReadJoystick b p { m with config := c }).af
        = (ReadJoystick b p { m with config := d }).af)
    ∧ (∀ i, i = 0 ∨ i = 5 ∨ i = 6 ∨ i = 7 →
        (ReadJoystick b p { m with config := c ^^^ (1 <<< i) }).reportBuffer
          = (ReadJoystick b p { m with config := c }).reportBuffer
        ∧ (ReadJoystick b p { m with config := c ^^^ (1 <<< i) }).af
          = (ReadJoystick b p { m with config := c }).af)
    ∧ (∀ e, e < 256 →
        (ReadJoystick b p { m with config := e }).reportBuffer.wire.length = 7) := by
  refine ⟨ReadJoystick_congr b p _ _ h1 h2 h3 h4 rfl, ?_, fun _ _ => rfl⟩
  intro i hi
  exact ReadJoystick_congr b p { m with config := c ^^^ (1 <<< i) } { m with config := c }
    (testBit_xor_one_shiftLeft c i 1 (by omega)) (testBit_xor_one_shiftLeft c i 2 (by omega))
    (testBit_xor_one_shiftLeft c i 3 (by omega)) (testBit_xor_one_shiftLeft c i 4 (by omega))
    rfl

/-- Witness of C14: `0x04` and `0xE5` agree on bits 1-4. -/
theorem undefined_config_bits_masked_witness :
    (Nat.testBit 0x04 1 = Nat.testBit 0xE5 1 ∧ Nat.testBit 0x04 2 = Nat.testBit 0xE5 2
      ∧ Nat.testBit 0x04 3 = Nat.testBit 0xE5 3 ∧ Nat.testBit 0x04 4 = Nat.testBit 0xE5 4)
    ∧ (ReadJoystick Build.plain Pins.modeLeft
          { Machine.squareAutofire with config := 0x04 }).reportBuffer
        = (ReadJoystick Build.plain Pins.modeLeft
          { Machine.squareAutofire with config := 0xE5 }).reportBuffer :=
  ⟨⟨by decide, by decide, by decide, by decide⟩,
   (undefined_config_bits_masked Build.plain Pins.modeLeft Machine.squareAutofire 0x04 0xE5
      (by decide) (by decide) (by decide) (by decide)).1.1⟩

/-- C15: the report is rebuilt from scratch on every tick.  The report buffer
after ReadJoystick does not depend on the previous contents of the buffer, in
particular not on the canned report 33, 38, 0, 0, 0, 0, 0 that a class
GET_REPORT request leaves there, nor on the EEPROM cell; the autofire state is
the only state carried from earlier ticks that it depends on, and replacing
that state changes neither the hat nor any of the four axes. -/
theorem report_rebuilt_each_tick (b : Build) (p : Pins) (m : Machine) (r : Report)
    (e : Nat) (a : Autofire) :
    (ReadJoystick b p { m with reportBuffer := r, config_EEPROM := e }).reportBuffer
        = (ReadJoystick b p m).reportBuffer
    ∧ ((usbFunctionSetup 0xA1 0x01 r).1.wire = [33, 38, 0, 0, 0, 0, 0]
      ∧ (usbFunctionSetup 0xA1 0x01 r).2 = 8
      ∧ (ReadJoystick b p
          (usbPoll { setup := some (0xA1, 0x01), interruptIsReady := true } m)).reportBuffer
          = (ReadJoystick b p m).reportBuffer)
    ∧ ((ReadJoystick b p { m with af := a }).reportBuffer.hatswitch
          = (ReadJoystick b p m).reportBuffer.hatswitch
      ∧ (ReadJoystick b p { m with af := a }).reportBuffer.x
          = (ReadJoystick b p m).reportBuffer.x
      ∧ (ReadJoystick b p { m with af := a }).reportBuffer.y
          = (ReadJoystick b p m).reportBuffer.y
      ∧ (ReadJoystick b p { m with af := a }).reportBuffer.z
          = (ReadJoystick b p m).reportBuffer.z
      ∧ (ReadJoystick b p { m with af := a }).reportBuffer.rz
          = (ReadJoystick b p m).reportBuffer.rz) := by
  have hreq : (0xA1 : Nat) &&& 0x60 = 0x20 := by decide
  refine ⟨(ReadJoystick_congr b p _ m rfl rfl rfl rfl rfl).1, ⟨?_, ?_, ?_⟩, ?_⟩
  · simp [usbFunctionSetup, hreq, Report.wire]
  · simp [usbFunctionSetup, hreq]
  · exact (ReadJoystick_congr b p _ m rfl rfl rfl rfl rfl).1
  · simp only [ReadJoystick_reportBuffer, directions_eq, and_self]

/-! ## Wire format -/

theorem hatTable_le (v : Vertical) (h : Horizontal) : hatTable v h ≤ 8 := by
  cases v <;> cases h <;> decide

theorem axisTable_values (first second : Bool) :
    axisTable first second = 0x00 ∨ axisTable first second = 0x80
      ∨ axisTable first second = 0xFF := by
  cases first <;> cases second <;> simp [axisTable]

theorem buttons2_lt (b : Build) (p : Pins) (m : Machine) :
    (ReadJoystick b p m).reportBuffer.buttons2 < 32 := by
  have hg := gated_lt b m.config p m.af
  have h : (ReadJoystick b p m).reportBuffer.buttons2
      = ((autofire b p (sampleButtons b m.config p) m.af).2 / 2 ^ 8) % 2 ^ 8 := by
    rw [ReadJoystick_reportBuffer, ← Nat.shiftRight_eq_div_pow]
    exact Nat.and_pow_two_sub_one_eq_mod _ 8
  rw [h]
  omega

/-- C16: for every snapshot, configuration and autofire state, the report that
ReadJoystick produces has the three padding bits of the second button byte
clear, a hat byte with upper nibble 0 and value at most 8, and each of the axis
bytes x, y, z, rz equal to `0x00`, `0x80` or `0xFF`. -/
theorem wire_format (b : Build) (p : Pins) (m : Machine) :
    (ReadJoystick b p m).reportBuffer.buttons2 &&& 0xE0 = 0
    ∧ (ReadJoystick b p m).reportBuffer.hatswitch &&& 0xF0 = 0
    ∧ (ReadJoystick b p m).reportBuffer.hatswitch ≤ 8
    ∧ ((ReadJoystick b p m).reportBuffer.x = 0x00 ∨ (ReadJoystick b p m).reportBuffer.x = 0x80
        ∨ (ReadJoystick b p m).reportBuffer.x = 0xFF)
    ∧ ((ReadJoystick b p m).reportBuffer.y = 0x00 ∨ (ReadJoystick b p m).reportBuffer.y = 0x80
        ∨ (ReadJoystick b p m).reportBuffer.y = 0xFF)
    ∧ ((ReadJoystick b p m).reportBuffer.z = 0x00 ∨ (ReadJoystick b p m).reportBuffer.z = 0x80
        ∨ (ReadJoystick b p m).reportBuffer.z = 0xFF)
    ∧ ((ReadJoystick b p m).reportBuffer.rz = 0x00
        ∨ (ReadJoystick b p m).reportBuffer.rz = 0x80
        ∨ (ReadJoystick b p m).reportBuffer.rz = 0xFF)
    ∧ (ReadJoystick b p m).reportBuffer.wire.length = 7 := by
  have hpad : ∀ v, v < 32 → v &&& 0xE0 = 0 := by decide
  have hnib : ∀ v, v < 9 → v &&& 0xF0 = 0 := by decide
  have hhat : (ReadJoystick b p m).reportBuffer.hatswitch ≤ 8 := by
    rw [ReadJoystick_reportBuffer, directions_eq]
    show (if m.config.testBit 2 = true then _ else 8) ≤ 8
    split_ifs
    · exact hatTable_le _ _
    · exact Nat.le_refl 8
  have haxis : ∀ (c : Bool) (f s : Bool),
      (if c = true then axisTable f s else 0x80) = 0x00
        ∨ (if c = true then axisTable f s else 0x80) = 0x80
        ∨ (if c = true then axisTable f s else 0x80) = 0xFF := by
    intro c f s
    cases c
    · simp
    · simpa using axisTable_values f s
  refine ⟨hpad _ (buttons2_lt b p m), hnib _ (Nat.lt_succ_of_le hhat), hhat, ?_, ?_, ?_, ?_, rfl⟩
  · rw [ReadJoystick_reportBuffer, directions_eq]
    exact haxis _ _ _
  · rw [ReadJoystick_reportBuffer, directions_eq]
    exact haxis _ _ _
  · rw [ReadJoystick_reportBuffer, directions_eq]
    exact haxis _ _ _
  · rw [ReadJoystick_reportBuffer, directions_eq]
    exact haxis _ _ _

/-! ## Press events outside the mask -/

/-- On the bits selected by the mask, `pressEvents` is the rising-edge vector. -/
theorem pressEvents_and_mask (prev curr : Nat) :
    pressEvents prev curr &&& pressEventMask = risingEdges prev curr := by
  apply Nat.eq_of_testBit_eq
  intro k
  simp only [risingEdges, Nat.testBit_and, Nat.testBit_xor, pressEvents_testBit,
    testBit_0xffff]
  cases hk : pressEventMask.testBit k
  · simp
  · have h16 : k < 16 := Nat.lt_of_lt_of_le (eligible_lt k hk) (by norm_num)
    cases curr.testBit k <;> cases prev.testBit k <;> simp [h16]

/-- C17 does not hold of the code: with Select (bit 8, outside the mask) pressed
on the previous and on the current tick, `tempButtons` is `0x100` and not 0, so
it contains a bit outside the eligible mask that was already pressed; with the
modifier held the modulator bit 8 therefore flips on every tick on which Select
is held.  In general bit k of `tempButtons` is bit k of the current vector
unless bit k is selected by the mask and was set on the previous tick, and only
the masked part of `tempButtons` is the rising-edge vector. -/
theorem pressEvents_unmasked_bits :
    pressEvents 0x100 0x100 = 0x100
    ∧ risingEdges 0x100 0x100 = 0
    ∧ pressEventMask.testBit 8 = false
    ∧ (stateAt Build.plain selectHeldUnderModifier (configInit (Machine.powerOn 0xFF))
        1).af.lastButtons = 0x100
    ∧ (stateAt Build.plain selectHeldUnderModifier (configInit (Machine.powerOn 0xFF))
        2).af.lastButtons = 0x100
    ∧ (stateAt Build.plain selectHeldUnderModifier (configInit (Machine.powerOn 0xFF))
        1).af.autofireModulator = 0xfeff
    ∧ (stateAt Build.plain selectHeldUnderModifier (configInit (Machine.powerOn 0xFF))
        2).af.autofireModulator = 0xffff
    ∧ (∀ prev curr k, (pressEvents prev curr).testBit k
        = (curr.testBit k && !(prev.testBit k && pressEventMask.testBit k)))
    ∧ (∀ prev curr, pressEvents prev curr &&& pressEventMask = risingEdges prev curr) := by
  refine ⟨by decide, by decide, by decide, by decide, by decide, by decide, by decide,
    pressEvents_testBit, pressEvents_and_mask⟩

/-! ## Extra-pins mode accessors -/

theorem CFG_JOYSTICK_SWITCH_READ_eq (c : Nat) :
    CFG_JOYSTICK_SWITCH_READ c = (c.testBit 5 && !c.testBit 6) := by
  rw [CFG_JOYSTICK_SWITCH_READ, and_one_shiftLeft_ne_zero, and_one_shiftLeft_ne_zero]

theorem CFG_JOYSTICK_SWITCH_EMU_eq (c : Nat) :
    CFG_JOYSTICK_SWITCH_EMU c = !(c.testBit 5 && c.testBit 6) := by
  rw [CFG_JOYSTICK_SWITCH_EMU, and_one_shiftLeft_ne_zero, and_one_shiftLeft_ne_zero]

theorem CFG_INVERTED_TRIGGERS_eq (c : Nat) :
    CFG_INVERTED_TRIGGERS c = (c.testBit 5 && c.testBit 6) := by
  rw [CFG_INVERTED_TRIGGERS, and_one_shiftLeft_ne_zero, and_one_shiftLeft_ne_zero]

/-- C18 does not hold of the code: `CFG_JOYSTICK_SWITCH_EMU` is true for the
default byte `0x04`, where bits 5 and 6 are both clear (mode deactivated), and
for `0x24` it is true together with `CFG_JOYSTICK_SWITCH_READ`.  The macro is
the negation of "bit 5 and bit 6", while the other two accessors follow the
documented encoding. -/
theorem switch_emu_accessor :
    (CFG_JOYSTICK_SWITCH_EMU 0x04 = true ∧ Nat.testBit 0x04 5 = false
      ∧ Nat.testBit 0x04 6 = false)
    ∧ (CFG_JOYSTICK_SWITCH_READ 0x24 = true ∧ CFG_JOYSTICK_SWITCH_EMU 0x24 = true)
    ∧ (∀ c, CFG_JOYSTICK_SWITCH_EMU c = !(c.testBit 5 && c.testBit 6))
    ∧ (∀ c, CFG_JOYSTICK_SWITCH_READ c = (c.testBit 5 && !c.testBit 6))
    ∧ (∀ c, CFG_INVERTED_TRIGGERS c = (c.testBit 5 && c.testBit 6)) :=
  ⟨by decide, by decide, CFG_JOYSTICK_SWITCH_EMU_eq, CFG_JOYSTICK_SWITCH_READ_eq,
    CFG_INVERTED_TRIGGERS_eq⟩

/-! ## Reachable configurations -/

theorem mem_commits (f : Machine → Machine) (hf : f ∈ commits) :
    f = enterDigitalPadMode ∨ f = enterLeftStickMode ∨ f = enterRightStickMode
      ∨ f = enterLeftStickDigitalPadMode := by
  simpa [commits] using hf

theorem reachableConfig_commit (f : Machine → Machine) (hf : f ∈ commits) (m : Machine)
    (hm : reachableConfig m.config) : reachableConfig (f m).config := by
  have e1 : (enterDigitalPadMode m).config = clrBit (clrBit (setBit m.config 2) 1) 3 := rfl
  have e2 : (enterLeftStickMode m).config = clrBit (setBit (clrBit m.config 2) 1) 3 := rfl
  have e3 : (enterRightStickMode m).config = setBit (clrBit (clrBit m.config 2) 1) 3 := rfl
  have e4 : (enterLeftStickDigitalPadMode m).config
      = clrBit (setBit (setBit m.config 2) 1) 3 := rfl
  unfold reachableConfig at hm ⊢
  rcases mem_commits f hf with h | h | h | h <;> subst h <;>
    rcases hm with hc | hc | hc | hc <;>
    simp only [e1, e2, e3, e4, hc] <;> decide

theorem modeGesture_cases (p : Pins) (m : Machine) :
    modeGesture p m = m ∨ ∃ f ∈ commits, modeGesture p m = f m := by
  unfold modeGesture
  split_ifs
  · exact Or.inr ⟨enterDigitalPadMode, by simp [commits], rfl⟩
  · exact Or.inr ⟨enterLeftStickMode, by simp [commits], rfl⟩
  · exact Or.inr ⟨enterRightStickMode, by simp [commits], rfl⟩
  · exact Or.inr ⟨enterLeftStickDigitalPadMode, by simp [commits], rfl⟩
  · exact Or.inl rfl
  · exact Or.inl rfl

theorem mainLoopPass_config (b : Build) (u : Usb) (p : Pins) (m : Machine) :
    (mainLoopPass b u p m).1.config = (modeGesture p m).config
    ∧ (mainLoopPass b u p m).1.config_EEPROM = (modeGesture p m).config_EEPROM := by
  have hc : (modeGesture p (usbPoll u m)).config = (modeGesture p m).config :=
    modeGesture_config_congr p _ _ (usbPoll_config u m)
  have he : (modeGesture p (usbPoll u m)).config_EEPROM = (modeGesture p m).config_EEPROM := by
    have h0 : (usbPoll u m).config = m.config := usbPoll_config u m
    have h1 : (usbPoll u m).config_EEPROM = m.config_EEPROM := by
      unfold usbPoll
      split <;> rfl
    unfold modeGesture
    split_ifs <;>
      simp [enterDigitalPadMode, enterLeftStickMode, enterRightStickMode,
        enterLeftStickDigitalPadMode, h0, h1]
  cases h : u.interruptIsReady
  · rw [mainLoopPass_not_ready b u p m h]
    exact ⟨hc, he⟩
  · rw [mainLoopPass_ready b u p m h]
    exact ⟨hc, he⟩

theorem reachableConfig_stateAt (b : Build) (ev : Nat → Usb × Pins) (m : Machine)
    (hm : reachableConfig m.config) (n : Nat) :
    reachableConfig (stateAt b ev m n).config := by
  induction n with
  | zero => exact hm
  | succ n ih =>
    rw [stateAt, (mainLoopPass_config b _ _ _).1]
    rcases modeGesture_cases (ev n).2 (stateAt b ev m n) with h | ⟨f, hf, h⟩
    · rw [h]
      exact ih
    · rw [h]
      exact reachableConfig_commit f hf _ ih

theorem reachableConfig_foldl (cs : List (Machine → Machine)) (hcs : ∀ f ∈ cs, f ∈ commits)
    (m : Machine) (hm : reachableConfig m.config) :
    reachableConfig (cs.foldl (fun s f => f s) m).config := by
  induction cs generalizing m with
  | nil => exact hm
  | cons f cs ih =>
    rw [List.foldl_cons]
    exact ih (fun g hg => hcs g (List.mem_cons_of_mem f hg)) (f m)
      (reachableConfig_commit f (hcs f (List.mem_cons_self f cs)) m hm)

theorem gestureFlags_of_reachable (c : Nat) (h : reachableConfig c) :
    gestureFlags (stickFlags c) ∧ ¬ (c.testBit 2 = true ∧ c.testBit 3 = true)
      ∧ stickFlags c ≠ (true, true, true) ∧ stickFlags c ≠ (false, false, false) := by
  unfold reachableConfig at h
  unfold gestureFlags
  rcases h with h | h | h | h <;> subst h <;> decide

theorem gestureFlags_commit (f : Machine → Machine) (hf : f ∈ commits) (m : Machine) :
    gestureFlags (stickFlags (f m).config) := by
  unfold gestureFlags
  rcases mem_commits f hf with h | h | h | h <;> subst h
  · exact Or.inl (stickFlags_enterDigitalPadMode m)
  · exact Or.inr (Or.inl (stickFlags_enterLeftStickMode m))
  · exact Or.inr (Or.inr (Or.inl (stickFlags_enterRightStickMode m)))
  · exact Or.inr (Or.inr (Or.inr (stickFlags_enterLeftStickDigitalPadMode m)))

/-- C19: reachable configurations.  Starting from the configuration `0x04` that
configInit produces for an erased EEPROM, after every finite sequence of gesture
commits, and after every number of passes of the main loop with any inputs, the
configuration byte is one of `0x04`, `0x02`, `0x08`, `0x06`: the stick flags are
pad only, left only, right only or pad plus left, right stick and digital pad
are never enabled together, and never all three or none; each of the four is
reached by one commit.  After a single commit from an arbitrary configuration
the stick flags are one of these four combinations. -/
theorem reachable_configurations (b : Build) (ev : Nat → Usb × Pins) (n : Nat)
    (cs : List (Machine → Machine)) (hcs : ∀ f ∈ cs, f ∈ commits) (m : Machine) :
    (configInit (Machine.powerOn 0xFF)).config = 0x04
    ∧ (reachableConfig (cs.foldl (fun s f => f s) (configInit (Machine.powerOn 0xFF))).config
      ∧ gestureFlags
          (stickFlags (cs.foldl (fun s f => f s) (configInit (Machine.powerOn 0xFF))).config)
      ∧ ¬ ((cs.foldl (fun s f => f s) (configInit (Machine.powerOn 0xFF))).config.testBit 2
            = true
          ∧ (cs.foldl (fun s f => f s) (configInit (Machine.powerOn 0xFF))).config.testBit 3
            = true)
      ∧ stickFlags (cs.foldl (fun s f => f s) (configInit (Machine.powerOn 0xFF))).config
          ≠ (true, true, true)
      ∧ stickFlags (cs.foldl (fun s f => f s) (configInit (Machine.powerOn 0xFF))).config
          ≠ (false, false, false))
    ∧ reachableConfig (stateAt b ev (configInit (Machine.powerOn 0xFF)) n).config
    ∧ ((enterDigitalPadMode (configInit (Machine.powerOn 0xFF))).config = 0x04
      ∧ (enterLeftStickMode (configInit (Machine.powerOn 0xFF))).config = 0x02
      ∧ (enterRightStickMode (configInit (Machine.powerOn 0xFF))).config = 0x08
      ∧ (enterLeftStickDigitalPadMode (configInit (Machine.powerOn 0xFF))).config = 0x06)
    ∧ (∀ f ∈ commits, gestureFlags (stickFlags (f m).config)) := by
  have h0 : reachableConfig (configInit (Machine.powerOn 0xFF)).config := Or.inl (by decide)
  have hf := reachableConfig_foldl cs hcs _ h0
  exact ⟨by decide, ⟨hf, gestureFlags_of_reachable _ hf⟩,
    reachableConfig_stateAt b ev _ h0 n, by decide,
    fun f hfc => gestureFlags_commit f hfc m⟩

/-- Witness of C19: left, then pad plus left, then right. -/
theorem reachable_configurations_witness :
    (∀ f ∈ [enterLeftStickMode, enterLeftStickDigitalPadMode, enterRightStickMode],
      f ∈ commits)
    ∧ reachableConfig
        (([enterLeftStickMode, enterLeftStickDigitalPadMode, enterRightStickMode].foldl
          (fun s f => f s) (configInit (Machine.powerOn 0xFF))).config) :=
  ⟨by simp [commits],
   (reachable_configurations Build.plain squareHeld 0
      [enterLeftStickMode, enterLeftStickDigitalPadMode, enterRightStickMode]
      (by simp [commits]) (configInit (Machine.powerOn 0xFF))).2.1.1⟩

/-! ## Memory and storage -/

theorem configInit_agrees (m : Machine) :
    (configInit m).config_EEPROM = (configInit m).config := by
  by_cases h : m.config_EEPROM = 0xFF
  · simp [configInit, h, EEPROM_DEF, CONFIG_DEF]
  · simp [configInit, h, EEPROM_DEF]

theorem commit_agrees (f : Machine → Machine) (hf : f ∈ commits) (m : Machine) :
    (f m).config_EEPROM = (f m).config := by
  rcases mem_commits f hf with h | h | h | h <;> subst h <;> rfl

theorem modeGesture_agrees (p : Pins) (m : Machine) (hm : m.config_EEPROM = m.config) :
    (modeGesture p m).config_EEPROM = (modeGesture p m).config := by
  rcases modeGesture_cases p m with h | ⟨f, hf, h⟩
  · rw [h]
    exact hm
  · rw [h]
    exact commit_agrees f hf m

theorem mainLoopPass_agrees (b : Build) (u : Usb) (p : Pins) (m : Machine)
    (hm : m.config_EEPROM = m.config) :
    (mainLoopPass b u p m).1.config_EEPROM = (mainLoopPass b u p m).1.config := by
  rw [(mainLoopPass_config b u p m).1, (mainLoopPass_config b u p m).2]
  exact modeGesture_agrees p m hm

theorem stateAt_agrees (b : Build) (ev : Nat → Usb × Pins) (m : Machine)
    (hm : m.config_EEPROM = m.config) (n : Nat) :
    (stateAt b ev m n).config_EEPROM = (stateAt b ev m n).config := by
  induction n with
  | zero => exact hm
  | succ n ih =>
    rw [stateAt]
    exact mainLoopPass_agrees b _ _ _ ih

/-- C20: memory and storage agree.  After configInit returns, for every stored
byte, and after each of the four gesture commits, from any configuration, the
byte in persistent storage equals the in-memory configuration; whenever the mode
gesture changes the in-memory configuration the storage holds the new value when
the gesture returns; ReadJoystick changes neither the configuration nor the
storage; so a pass of the main loop keeps the agreement, and it holds after
every number of passes that follow configInit. -/
theorem storage_agrees (b : Build) (u : Usb) (p : Pins) (ev : Nat → Usb × Pins) (n : Nat)
    (m : Machine) :
    (configInit m).config_EEPROM = (configInit m).config
    ∧ (∀ f ∈ commits, (f m).config_EEPROM = (f m).config)
    ∧ ((modeGesture p m).config ≠ m.config →
        (modeGesture p m).config_EEPROM = (modeGesture p m).config)
    ∧ ((ReadJoystick b p m).config = m.config
      ∧ (ReadJoystick b p m).config_EEPROM = m.config_EEPROM)
    ∧ (m.config_EEPROM = m.config →
        (mainLoopPass b u p m).1.config_EEPROM = (mainLoopPass b u p m).1.config)
    ∧ (stateAt b ev (configInit m) n).config_EEPROM
        = (stateAt b ev (configInit m) n).config := by
  refine ⟨configInit_agrees m, fun f hf => commit_agrees f hf m, ?_, ⟨rfl, rfl⟩,
    mainLoopPass_agrees b u p m, stateAt_agrees b ev _ (configInit_agrees m) n⟩
  intro hne
  rcases modeGesture_cases p m with h | ⟨f, hf, h⟩
  · exact absurd (by rw [h]) hne
  · rw [h]
    exact commit_agrees f hf m

/-- Witness of C20: the left-stick gesture after first power-on. -/
theorem storage_agrees_witness :
    ((modeGesture Pins.modeLeft (configInit (Machine.powerOn 0xFF))).config
        ≠ (configInit (Machine.powerOn 0xFF)).config
      ∧ enterLeftStickMode ∈ commits)
    ∧ (modeGesture Pins.modeLeft (configInit (Machine.powerOn 0xFF))).config_EEPROM
        = (modeGesture Pins.modeLeft (configInit (Machine.powerOn 0xFF))).config
    ∧ (enterLeftStickMode (configInit (Machine.powerOn 0xFF))).config_EEPROM
        = (enterLeftStickMode (configInit (Machine.powerOn 0xFF))).config :=
  ⟨⟨by decide, by simp [commits]⟩,
   (storage_agrees Build.plain Usb.tick Pins.modeLeft squareHeld 0
      (configInit (Machine.powerOn 0xFF))).2.2.1 (by decide),
   (storage_agrees Build.plain Usb.tick Pins.modeLeft squareHeld 0
      (configInit (Machine.powerOn 0xFF))).2.1 enterLeftStickMode (by simp [commits])⟩

/-! ## Autofire counter -/

theorem counter_lt_stateAt (b : Build) (ev : Nat → Usb × Pins) (m : Machine)
    (hc : m.af.autofireCounter < AUTOFIREMAX b) (n : Nat) :
    (stateAt b ev m n).af.autofireCounter < AUTOFIREMAX b := by
  rw [counter_tickCount b ev m hc n]
  exact Nat.mod_lt _ (by omega)

/-- The counter after one pass of the loop. -/
theorem counter_step (b : Build) (ev : Nat → Usb × Pins) (m : Machine)
    (hc : m.af.autofireCounter < AUTOFIREMAX b) (n : Nat) :
    (stateAt b ev m (n + 1)).af.autofireCounter
      = if (ev n).1.interruptIsReady = true then
          ((stateAt b ev m n).af.autofireCounter + 1) % AUTOFIREMAX b
        else (stateAt b ev m n).af.autofireCounter := by
  have hlt := counter_lt_stateAt b ev m hc n
  rw [stateAt, mainLoopPass_af]
  split_ifs with hr
  · exact autofire_counter b _ _ _ hlt
  · rfl

/-- C21: autofire counter invariant.  The period P is `AUTOFIREMAX`, 60/5 = 12 for
the 16 MHz build (60 ticks/s) and 45/5 = 9 for the 12 MHz build (45 ticks/s), and
the counter starts at 0.  From any state whose counter is below P, the boot
state included, after every number of passes the counter is below P and equals
the start value plus the number of ticks so far, modulo P; each tick replaces
the counter c by (c + 1) mod P, where c + 1 fits in the 8-bit counter and the
counter is reset to 0 exactly when c + 1 = P; passes without a tick leave it.
Hence the counter sequence has period exactly P in the number of ticks: it
repeats after P ticks and after no smaller positive number of ticks. -/
theorem counter_invariant (b : Build) (ev : Nat → Usb × Pins) (m : Machine) (n : Nat)
    (hc : m.af.autofireCounter < AUTOFIREMAX b) :
    ((b.F_CPU = .mhz16 → AUTOFIREMAX b = 60 / 5 ∧ AUTOFIREMAX b = 12)
      ∧ (b.F_CPU = .mhz12 → AUTOFIREMAX b = 45 / 5 ∧ AUTOFIREMAX b = 9))
    ∧ Autofire.boot.autofireCounter = 0
    ∧ (stateAt b ev m n).af.autofireCounter < AUTOFIREMAX b
    ∧ (stateAt b ev m n).af.autofireCounter
        = (m.af.autofireCounter + tickCount ev n) % AUTOFIREMAX b
    ∧ ((ev n).1.interruptIsReady = true →
        (stateAt b ev m (n + 1)).af.autofireCounter
            = ((stateAt b ev m n).af.autofireCounter + 1) % AUTOFIREMAX b
        ∧ ((stateAt b ev m n).af.autofireCounter + 1) % 256
            = (stateAt b ev m n).af.autofireCounter + 1
        ∧ ((stateAt b ev m n).af.autofireCounter + 1 = AUTOFIREMAX b →
            (stateAt b ev m (n + 1)).af.autofireCounter = 0)
        ∧ ((stateAt b ev m n).af.autofireCounter + 1 ≠ AUTOFIREMAX b →
            (stateAt b ev m (n + 1)).af.autofireCounter
              = (stateAt b ev m n).af.autofireCounter + 1))
    ∧ ((ev n).1.interruptIsReady = false →
        (stateAt b ev m (n + 1)).af.autofireCounter
          = (stateAt b ev m n).af.autofireCounter)
    ∧ (∀ k, tickCount ev k = tickCount ev n + AUTOFIREMAX b →
        (stateAt b ev m k).af.autofireCounter = (stateAt b ev m n).af.autofireCounter)
    ∧ (∀ k, tickCount ev n < tickCount ev k →
        tickCount ev k < tickCount ev n + AUTOFIREMAX b →
        (stateAt b ev m k).af.autofireCounter
          ≠ (stateAt b ev m n).af.autofireCounter) := by
  have hlt := counter_lt_stateAt b ev m hc n
  have hstep := counter_step b ev m hc n
  refine ⟨⟨?_, ?_⟩, rfl, hlt, counter_tickCount b ev m hc n, ?_, ?_, ?_, ?_⟩
  · intro h
    simp [AUTOFIREMAX, h]
  · intro h
    simp [AUTOFIREMAX, h]
  · intro hr
    rw [hstep, if_pos hr]
    rcases AUTOFIREMAX_cases b with hP | hP <;> rw [hP] at hlt ⊢ <;>
      refine ⟨rfl, by omega, fun h => by omega, fun h => by omega⟩
  · intro hr
    rw [hstep, if_neg (by simp [hr])]
  · intro k hk
    rw [counter_tickCount b ev m hc k, counter_tickCount b ev m hc n, hk]
    rcases AUTOFIREMAX_cases b with hP | hP <;> rw [hP] <;> omega
  · intro k h1 h2
    rw [counter_tickCount b ev m hc k, counter_tickCount b ev m hc n]
    rcases AUTOFIREMAX_cases b with hP | hP <;> rw [hP] at h2 ⊢ <;> omega

/-- Witness of C21: twelve ticks of the 16 MHz build from first power-on; the
twelfth tick wraps the counter to 0. -/
theorem counter_invariant_witness :
    ((configInit (Machine.powerOn 0xFF)).af.autofireCounter < AUTOFIREMAX Build.plain
      ∧ (squareHeld 11).1.interruptIsReady = true
      ∧ (stateAt Build.plain squareHeld (configInit (Machine.powerOn 0xFF))
          11).af.autofireCounter + 1 = AUTOFIREMAX Build.plain)
    ∧ (stateAt Build.plain squareHeld (configInit (Machine.powerOn 0xFF))
        12).af.autofireCounter = 0 :=
  ⟨⟨by decide, rfl, by decide⟩,
   ((counter_invariant Build.plain squareHeld (configInit (Machine.powerOn 0xFF)) 11
      (by decide)).2.2.2.2.1 rfl).2.2.1 (by decide)⟩

/-! ## Frame of the mode commits -/

theorem testBit_0xF1 (i : Nat) :
    Nat.testBit 0xF1 i
      = (decide (i < 8) && !decide (i = 1) && !decide (i = 2) && !decide (i = 3)) := by
  by_cases h : i < 8
  · interval_cases i <;> decide
  · have h8 : (0xF1 : Nat) < 2 ^ 8 := by norm_num
    have hle : 2 ^ 8 ≤ 2 ^ i := Nat.pow_le_pow_right (by norm_num) (by omega)
    rw [Nat.testBit_lt_two_pow (Nat.lt_of_lt_of_le h8 hle)]
    simp [h]

/-- Bits of the configuration after any of the four commits, outside the stick
flags. -/
theorem testBit_commit_frame (f : Machine → Machine) (hf : f ∈ commits) (m : Machine)
    (i : Nat) (hi : i < 8) (h1 : i ≠ 1) (h2 : i ≠ 2) (h3 : i ≠ 3) :
    (f m).config.testBit i = m.config.testBit i := by
  rcases mem_commits f hf with h | h | h | h <;> subst h
  · simp [testBit_enterDigitalPadMode, hi, h1, h2, h3]
  · simp [testBit_enterLeftStickMode, hi, h1, h2, h3]
  · simp [testBit_enterRightStickMode, hi, h1, h2, h3]
  · simp [testBit_enterLeftStickDigitalPadMode, hi, h1, h2, h3]

theorem commit_and_0xF1 (f : Machine → Machine) (hf : f ∈ commits) (m : Machine) :
    (f m).config &&& 0xF1 = m.config &&& 0xF1 := by
  apply Nat.eq_of_testBit_eq
  intro i
  rw [Nat.testBit_and, Nat.testBit_and, testBit_0xF1]
  by_cases hi : i < 8
  · by_cases h1 : i = 1
    · simp [h1]
    · by_cases h2 : i = 2
      · simp [h2]
      · by_cases h3 : i = 3
        · simp [h3]
        · rw [testBit_commit_frame f hf m i hi h1 h2 h3]
  · simp [hi]

theorem commit_config_idem (f : Machine → Machine) (hf : f ∈ commits) (m : Machine) :
    (f (f m)).config = (f m).config := by
  apply Nat.eq_of_testBit_eq
  intro i
  rcases mem_commits f hf with h | h | h | h <;> subst h
  · rw [testBit_enterDigitalPadMode (enterDigitalPadMode m), testBit_enterDigitalPadMode m]
    by_cases h8 : i < 8 <;> by_cases h1 : i = 1 <;> by_cases h2 : i = 2 <;>
      by_cases h3 : i = 3 <;> simp [h8, h1, h2, h3]
  · rw [testBit_enterLeftStickMode (enterLeftStickMode m), testBit_enterLeftStickMode m]
    by_cases h8 : i < 8 <;> by_cases h1 : i = 1 <;> by_cases h2 : i = 2 <;>
      by_cases h3 : i = 3 <;> simp [h8, h1, h2, h3]
  · rw [testBit_enterRightStickMode (enterRightStickMode m), testBit_enterRightStickMode m]
    by_cases h8 : i < 8 <;> by_cases h1 : i = 1 <;> by_cases h2 : i = 2 <;>
      by_cases h3 : i = 3 <;> simp [h8, h1, h2, h3]
  · rw [testBit_enterLeftStickDigitalPadMode (enterLeftStickDigitalPadMode m),
      testBit_enterLeftStickDigitalPadMode m]
    by_cases h8 : i < 8 <;> by_cases h1 : i = 1 <;> by_cases h2 : i = 2 <;>
      by_cases h3 : i = 3 <;> simp [h8, h1, h2, h3]

/-- Each commit rebuilds the machine from its argument and the new byte. -/
theorem commit_shape (f : Machine → Machine) (hf : f ∈ commits) (m : Machine) :
    f m = { m with config := (f m).config, config_EEPROM := (f m).config } := by
  rcases mem_commits f hf with h | h | h | h <;> subst h <;> rfl

theorem commit_frame (f : Machine → Machine) (hf : f ∈ commits) (m : Machine) :
    (f m).reportBuffer = m.reportBuffer ∧ (f m).af = m.af := by
  rcases mem_commits f hf with h | h | h | h <;> subst h <;> exact ⟨rfl, rfl⟩

theorem commit_idem (f : Machine → Machine) (hf : f ∈ commits) (m : Machine) :
    f (f m) = f m := by
  rw [commit_shape f hf (f m), commit_config_idem f hf m]
  conv_rhs => rw [commit_shape f hf m]
  rw [(commit_frame f hf m).1, (commit_frame f hf m).2]

/-- C22: gesture commits touch only the stick flags.  For every configuration and
each of the four enter*Mode operations, the resulting byte agrees with the
previous one on bits 0, 4, 5, 6 and 7, that is, result AND `0xF1` equals the
previous value AND `0xF1`; so the default-mode bit, the Start+Select=Home flag
and the extra-pins accessors keep their values, also across the mode gesture of
the main loop; and each operation is idempotent: applied twice it leaves the same
configuration, the same storage and the same machine state as applied once. -/
theorem commits_touch_only_stick_flags (p : Pins) (m : Machine) :
    (∀ f ∈ commits,
      ((f m).config.testBit 0 = m.config.testBit 0
        ∧ (f m).config.testBit 4 = m.config.testBit 4
        ∧ (f m).config.testBit 5 = m.config.testBit 5
        ∧ (f m).config.testBit 6 = m.config.testBit 6
        ∧ (f m).config.testBit 7 = m.config.testBit 7)
      ∧ (f m).config &&& 0xF1 = m.config &&& 0xF1
      ∧ (CFG_HOME_EMU (f m).config = CFG_HOME_EMU m.config
        ∧ CFG_JOYSTICK_SWITCH_READ (f m).config = CFG_JOYSTICK_SWITCH_READ m.config
        ∧ CFG_JOYSTICK_SWITCH_EMU (f m).config = CFG_JOYSTICK_SWITCH_EMU m.config
        ∧ CFG_INVERTED_TRIGGERS (f m).config = CFG_INVERTED_TRIGGERS m.config)
      ∧ ((f (f m)).config = (f m).config
        ∧ (f (f m)).config_EEPROM = (f m).config_EEPROM
        ∧ f (f m) = f m))
    ∧ (modeGesture p m).config &&& 0xF1 = m.config &&& 0xF1 := by
  have hall : ∀ f ∈ commits, ∀ i, i < 8 → i ≠ 1 → i ≠ 2 → i ≠ 3 →
      (f m).config.testBit i = m.config.testBit i :=
    fun f hf i => testBit_commit_frame f hf m i
  refine ⟨?_, ?_⟩
  · intro f hf
    have b0 := hall f hf 0 (by norm_num) (by norm_num) (by norm_num) (by norm_num)
    have b4 := hall f hf 4 (by norm_num) (by norm_num) (by norm_num) (by norm_num)
    have b5 := hall f hf 5 (by norm_num) (by norm_num) (by norm_num) (by norm_num)
    have b6 := hall f hf 6 (by norm_num) (by norm_num) (by norm_num) (by norm_num)
    have b7 := hall f hf 7 (by norm_num) (by norm_num) (by norm_num) (by norm_num)
    have hid := commit_idem f hf m
    refine ⟨⟨b0, b4, b5, b6, b7⟩, commit_and_0xF1 f hf m, ⟨?_, ?_, ?_, ?_⟩, ?_⟩
    · rw [CFG_HOME_EMU_eq, CFG_HOME_EMU_eq, b4]
    · rw [CFG_JOYSTICK_SWITCH_READ_eq, CFG_JOYSTICK_SWITCH_READ_eq, b5, b6]
    · rw [CFG_JOYSTICK_SWITCH_EMU_eq, CFG_JOYSTICK_SWITCH_EMU_eq, b5, b6]
    · rw [CFG_INVERTED_TRIGGERS_eq, CFG_INVERTED_TRIGGERS_eq, b5, b6]
    · exact ⟨by rw [hid], by rw [hid], hid⟩
  · rcases modeGesture_cases p m with h | ⟨f, hf, h⟩
    · rw [h]
    · rw [h]
      exact commit_and_0xF1 f hf m

/-- Witness of C22: the right-stick commit on the byte `0xF5`. -/
theorem commits_touch_only_stick_flags_witness :
    enterRightStickMode ∈ commits
    ∧ (enterRightStickMode { Machine.powerOn 0xF5 with config := 0xF5 }).config &&& 0xF1
        = ({ Machine.powerOn 0xF5 with config := 0xF5 } : Machine).config &&& 0xF1 :=
  ⟨by simp [commits],
   ((commits_touch_only_stick_flags Pins.idle { Machine.powerOn 0xF5 with config := 0xF5 }).1
      enterRightStickMode (by simp [commits])).2.1⟩

end ArcadeStick
